import Mathlib

/-! Travel-Tracker: trip cost estimation, distance derivation and the trip form.

A shallow embedding of the pricing heuristic `calculatePrice`, of the
haversine `calculateDistance` and of the four-step form (its draft, the
handlers `nextStep`, `prevStep`, `handleInputChange` and `handleSubmit`) from
`frontend/src/components/InteractiveTripForm.jsx`, of the handler of
`POST /api/trips` from `server.js` and of the coordinate listener of
`public/script.js`.

JavaScript numbers are modelled as exact rationals extended with `NaN` and the
two infinities, and `-0` is identified with `0`.  The code is read twice.  In
the exact reading (`calculatePrice`, `calculateDistance`) arithmetic is exact
and the trigonometric part is over the real numbers.  In the machine reading
(`calculatePriceWith`, `calculateDistanceWith`) every operation and every
literal goes through a rounding function, `roundDouble` being the rounding of
IEEE-754 binary64, and the functions of `Math` are arguments; with the
rounding `JSNum.fin` the machine reading is the exact one.

A handler is a function from the state before the event to the state after it
and the list of its effects (messages, the `POST`, the callback); the random
draw, the clock and the outcome of the `fetch` are arguments.  The length test
on the destination text counts characters.
-/

namespace TravelTracker

/-! ## JavaScript numbers -/

/-- A JavaScript number: `NaN`, `+Infinity`, `-Infinity` or a finite value. -/
inductive JSNum where
  | nan
  | pinf
  | ninf
  | fin (q : ℚ)
  deriving DecidableEq

namespace JSNum

/-- The sign of a non-NaN number: `-1`, `0` or `1` (`none` for `NaN`). -/
def sign : JSNum → Option ℤ
  | nan => none
  | pinf => some 1
  | ninf => some (-1)
  | fin q => some (if q = 0 then 0 else if 0 < q then 1 else -1)

/-- The infinity of a given sign (sign `0` gives `NaN`, as in `0 * Infinity`). -/
def ofSign (s : ℤ) : JSNum :=
  if s = 0 then nan else if 0 < s then pinf else ninf

/-- The `*` operator on numbers. -/
def mul : JSNum → JSNum → JSNum
  | fin a, fin b => fin (a * b)
  | x, y =>
    match sign x, sign y with
    | some s, some t => ofSign (s * t)
    | _, _ => nan

/-- The `+` operator on numbers. -/
def add : JSNum → JSNum → JSNum
  | nan, _ => nan
  | _, nan => nan
  | fin a, fin b => fin (a + b)
  | pinf, ninf => nan
  | ninf, pinf => nan
  | pinf, _ => pinf
  | _, pinf => pinf
  | ninf, _ => ninf
  | _, ninf => ninf

/-- The `-` operator on numbers. -/
def sub : JSNum → JSNum → JSNum
  | nan, _ => nan
  | _, nan => nan
  | fin a, fin b => fin (a - b)
  | pinf, pinf => nan
  | ninf, ninf => nan
  | pinf, _ => pinf
  | _, ninf => pinf
  | ninf, _ => ninf
  | _, pinf => ninf

/-- The function `Math.max(0, x)`: `NaN` if `x` is `NaN`, else the larger of `0` and `x`. -/
def max0 : JSNum → JSNum
  | nan => nan
  | pinf => pinf
  | ninf => fin 0
  | fin q => fin (max 0 q)

/-- The function `Math.round(x)`: the nearest integer, a tie going towards `+Infinity`. -/
def round : JSNum → JSNum
  | fin q => fin (⌊q + 1 / 2⌋ : ℤ)
  | x => x

/-- JavaScript truthiness of a number: everything except `0` and `NaN`. -/
def truthy : JSNum → Bool
  | nan => false
  | fin q => decide (q ≠ 0)
  | _ => true

/-- The comparison `0 <= x` on numbers (false for `NaN`). -/
def nonneg : JSNum → Prop
  | fin q => 0 ≤ q
  | pinf => True
  | _ => False

end JSNum

/-! ## `parseFloat` -/

/-- The white space skipped by `parseFloat` (tab, LF, VT, FF, CR, space,
no-break space, line and paragraph separators, byte order mark). -/
def isStrWhiteSpace (c : Char) : Bool :=
  c.toNat = 9 || c.toNat = 10 || c.toNat = 11 || c.toNat = 12 || c.toNat = 13 ||
  c.toNat = 32 || c.toNat = 160 || c.toNat = 8232 || c.toNat = 8233 || c.toNat = 65279

/-- The value of a run of decimal digits (`0` for the empty run). -/
def digitsValue (ds : List Char) : ℕ :=
  ds.foldl (fun acc c => 10 * acc + (c.toNat - 48)) 0

/-- Splits an optional leading sign off: the flag says whether it was `-`. -/
def takeSign : List Char → Bool × List Char
  | '-' :: r => (true, r)
  | '+' :: r => (false, r)
  | cs => (false, cs)

/-- The exponent part `e[+-]digits` at the head of the input, `0` when the
input does not start with a complete exponent part. -/
def exponentValue : List Char → ℤ
  | [] => 0
  | e :: r =>
    if e = 'e' ∨ e = 'E' then
      let sr := takeSign r
      let ds := sr.2.takeWhile Char.isDigit
      if ds = [] then 0
      else if sr.1 then -(digitsValue ds : ℤ) else (digitsValue ds : ℤ)
    else 0

/-- The function `parseFloat` on the characters of a string: leading white space is
skipped, then the longest prefix that is a decimal literal (or `Infinity`) is
read; `NaN` when there is none. -/
def parseFloatChars (cs : List Char) : JSNum :=
  let sr := takeSign (cs.dropWhile isStrWhiteSpace)
  let body := sr.2
  if "Infinity".toList.isPrefixOf body then
    (if sr.1 then JSNum.ninf else JSNum.pinf)
  else
    let intPart := body.takeWhile Char.isDigit
    let rest := body.dropWhile Char.isDigit
    let fracPart := match rest with
      | '.' :: r => r.takeWhile Char.isDigit
      | _ => []
    let rest := match rest with
      | '.' :: r => r.dropWhile Char.isDigit
      | _ => rest
    if intPart = [] ∧ fracPart = [] then JSNum.nan
    else
      let mant : ℚ := (digitsValue intPart : ℚ) + (digitsValue fracPart : ℚ) / 10 ^ fracPart.length
      let value : ℚ := mant * 10 ^ exponentValue rest
      JSNum.fin (if sr.1 then -value else value)

/-- A value the form hands to the pricing function: a string (what an input
field holds, `""` when empty) or a number. -/
inductive JSVal where
  | str (s : String)
  | num (n : JSNum)
  deriving DecidableEq

namespace JSVal

/-- JavaScript truthiness: a string is truthy unless empty, a number unless it
is `0` or `NaN`. -/
def truthy : JSVal → Bool
  | str s => decide (s ≠ "")
  | num n => n.truthy

end JSVal

/-- The call `parseFloat(v)`: a number is returned as it is, a string is parsed. -/
def parseFloat : JSVal → JSNum
  | JSVal.num n => n
  | JSVal.str s => parseFloatChars s.toList

/-! ## The pricing heuristic -/

/-- The table `basePrices` of `calculatePrice`; `none` is the `undefined` of a
key that is not in the table. -/
def basePrices (mode : String) : Option ℚ :=
  if mode = "walking" then some 0
  else if mode = "cycling" then some 5
  else if mode = "car" then some 12
  else if mode = "bus" then some 8
  else if mode = "train" then some 6
  else if mode = "flight" then some 4500
  else none

/-- Conversion of a table entry to a number: `undefined` becomes `NaN`. -/
def toNumber : Option ℚ → JSNum
  | some q => JSNum.fin q
  | none => JSNum.nan

/-- The result of `new Date().getDay()` on a Sunday. -/
def Sunday : Fin 7 := 0

/-- The result of `new Date().getDay()` on a Saturday. -/
def Saturday : Fin 7 := 6

/-- The function `calculatePrice(mode, distance, companions, purpose)`, with the value `day`
of `new Date().getDay()` made an argument.  An absent mode or purpose is the
empty string. -/
def calculatePrice (day : Fin 7) (mode : String) (distance : JSVal)
    (companions : ℤ) (purpose : String) : JSNum :=
  if mode = "" ∨ distance.truthy = false then JSNum.fin 0
  else
    let price := JSNum.mul (toNumber (basePrices mode)) (parseFloat distance)
    let price :=
      if mode = "flight" then
        JSNum.add (JSNum.fin 4500) (JSNum.mul (parseFloat distance) (JSNum.fin 3))
      else price
    let price :=
      if 0 < companions ∧ mode ∈ ["car", "flight"] then
        JSNum.mul price
          (JSNum.add (JSNum.fin 1) (JSNum.mul (JSNum.fin companions) (JSNum.fin 0.3)))
      else price
    let price := if purpose = "medical" then JSNum.mul price (JSNum.fin 1.5) else price
    let price := if purpose = "work" then JSNum.mul price (JSNum.fin 1.2) else price
    let price := if purpose = "education" then JSNum.mul price (JSNum.fin 0.8) else price
    let price :=
      if mode ∈ ["walking", "cycling"] then JSNum.max0 (JSNum.sub price (JSNum.fin 20))
      else price
    let isWeekend : Bool := decide (day.val % 6 = 0)
    let price :=
      if isWeekend = true ∧ mode ∈ ["car", "bus"] then JSNum.mul price (JSNum.fin 1.3)
      else price
    JSNum.round price

/-- The per-kilometre rate the specification gives each mode other than
flight. -/
def specRate (mode : String) : ℚ :=
  if mode = "walking" then 0
  else if mode = "cycling" then 5
  else if mode = "car" then 12
  else if mode = "bus" then 8
  else if mode = "train" then 6
  else 0

/-- The specification's pricing pipeline, written from its words over exact
numbers: base price, companion factor, purpose factor, eco discount, weekend
surge, rounding to the nearest integer. -/
def specPrice (day : Fin 7) (mode : String) (d : ℚ) (c : ℤ) (p : String) : ℤ :=
  let price : ℚ := if mode = "flight" then 4500 + 3 * d else specRate mode * d
  let price : ℚ :=
    if 0 < c ∧ (mode = "car" ∨ mode = "flight") then price * (1 + 0.3 * c) else price
  let price : ℚ :=
    if p = "medical" then price * 1.5
    else if p = "work" then price * 1.2
    else if p = "education" then price * 0.8
    else price
  let price : ℚ := if mode = "walking" ∨ mode = "cycling" then max 0 (price - 20) else price
  let price : ℚ :=
    if (day = Saturday ∨ day = Sunday) ∧ (mode = "car" ∨ mode = "bus") then price * 1.3
    else price
  round price

/-- The six transport modes of the form. -/
def modes : List String := ["walking", "cycling", "car", "bus", "train", "flight"]

/-! ## The haversine distance -/

/-- The function `Math.atan2(y, x)` over the reals: the angle of the point `(x, y)`, in
`(-π, π]`, and `0` at the origin. -/
noncomputable def atan2 (y x : ℝ) : ℝ := Complex.arg ⟨x, y⟩

/-- The constant `a` of `calculateDistance`: the haversine term of the two
points. -/
noncomputable def haversineA (lat1 lng1 lat2 lng2 : ℝ) : ℝ :=
  let dLat := (lat2 - lat1) * Real.pi / 180
  let dLng := (lng2 - lng1) * Real.pi / 180
  Real.sin (dLat / 2) * Real.sin (dLat / 2) +
    Real.cos (lat1 * Real.pi / 180) * Real.cos (lat2 * Real.pi / 180) *
    Real.sin (dLng / 2) * Real.sin (dLng / 2)

/-- The function `calculateDistance(lat1, lng1, lat2, lng2)` over the real numbers. -/
noncomputable def calculateDistance (lat1 lng1 lat2 lng2 : ℝ) : ℝ :=
  let R : ℝ := 6371
  let a := haversineA lat1 lng1 lat2 lng2
  let c := 2 * atan2 (Real.sqrt a) (Real.sqrt (1 - a))
  R * c

/-! ## `parseInt`, `toFixed` and the comparisons used by the form -/

namespace JSNum

/-- The comparison `x > 0` on numbers (false for `NaN`). -/
def gt0 : JSNum → Bool
  | fin q => decide (0 < q)
  | pinf => true
  | _ => false

/-- The expression `a || b` on numbers: `a` when it is truthy, else `b`. -/
def orElse (a b : JSNum) : JSNum := if a.truthy = true then a else b

end JSNum

/-- The expression `a || b` on strings: `a` unless it is empty, else `b`. -/
def strOr (a b : String) : String := if a ≠ "" then a else b

/-- The value of a hexadecimal digit, `none` for any other character. -/
def hexDigitValue (c : Char) : Option ℕ :=
  if c.isDigit then some (c.toNat - 48)
  else if 97 ≤ c.toNat ∧ c.toNat ≤ 102 then some (c.toNat - 87)
  else if 65 ≤ c.toNat ∧ c.toNat ≤ 70 then some (c.toNat - 55)
  else none

/-- The value of a run of hexadecimal digits (`0` for the empty run). -/
def hexValue (ds : List Char) : ℕ :=
  ds.foldl (fun acc c => 16 * acc + (hexDigitValue c).getD 0) 0

/-- The magnitude read by `parseInt` (radix argument absent) after white space
and sign: hexadecimal digits after a `0x` or `0X` mark, decimal digits
otherwise; `none` when no digit is read. -/
def parseIntMagnitude : List Char → Option ℕ
  | '0' :: 'x' :: r =>
    let ds := r.takeWhile (fun c => (hexDigitValue c).isSome)
    if ds = [] then none else some (hexValue ds)
  | '0' :: 'X' :: r =>
    let ds := r.takeWhile (fun c => (hexDigitValue c).isSome)
    if ds = [] then none else some (hexValue ds)
  | cs =>
    let ds := cs.takeWhile Char.isDigit
    if ds = [] then none else some (digitsValue ds)

/-- The function `parseInt` on the characters of a string; `none` is `NaN`. -/
def parseIntChars (cs : List Char) : Option ℤ :=
  let sr := takeSign (cs.dropWhile isStrWhiteSpace)
  match parseIntMagnitude sr.2 with
  | none => none
  | some n => some (if sr.1 then -(n : ℤ) else (n : ℤ))

/-- The call `parseInt(v)`: a string is parsed; a finite number is truncated
towards zero (its decimal rendering is parsed, which is a truncation for the
magnitudes written without an exponent); `NaN` and the infinities give `NaN`. -/
def parseInt : JSVal → JSNum
  | JSVal.str s =>
    match parseIntChars s.toList with
    | some n => JSNum.fin n
    | none => JSNum.nan
  | JSVal.num (JSNum.fin q) => JSNum.fin (if 0 ≤ q then (⌊q⌋ : ℤ) else (⌈q⌉ : ℤ))
  | JSVal.num _ => JSNum.nan

/-- The expression `parseInt(s) || 0` as an integer: `0` when `s` does not
parse. -/
def parseIntOrZero (s : String) : ℤ := (parseIntChars s.toList).getD 0

/-- Two decimals of a non-negative real: `n / 100` written in decimal, where
`n` is the integer nearest to `100 * x` (the larger one on a tie). -/
noncomputable def toFixed2Abs (x : ℝ) : String :=
  let n : ℕ := (⌊x * 100 + 1 / 2⌋ : ℤ).toNat
  toString (n / 100) ++ "." ++ (if n % 100 < 10 then "0" else "") ++ toString (n % 100)

/-- The method `x.toFixed(2)` on a real number below `10 ^ 21` in magnitude. -/
noncomputable def toFixed2 (x : ℝ) : String :=
  if x < 0 then "-" ++ toFixed2Abs (-x) else toFixed2Abs x

/-- The text `calculateDistance(lat1, lng1, lat2, lng2).toFixed(2)` on
JavaScript numbers: a `NaN` or infinite argument makes the distance `NaN`. -/
noncomputable def distanceKmText : JSNum → JSNum → JSNum → JSNum → String
  | JSNum.fin lat1, JSNum.fin lng1, JSNum.fin lat2, JSNum.fin lng2 =>
    toFixed2 (calculateDistance lat1 lng1 lat2 lng2)
  | _, _, _, _ => "NaN"

/-! ## The trip draft -/

/-- The keys of `formData`. -/
inductive Field where
  | tripNumber
  | originLat
  | originLng
  | originPlace
  | startTime
  | destinationLat
  | destinationLng
  | destinationPlace
  | endTime
  | mode
  | distance
  | purpose
  | companions
  | frequency
  | cost
  deriving DecidableEq

/-- The state `formData` of `InteractiveTripForm`.  Every field holds the text
of its input, except `cost`, which holds a number after a price was computed
for it. -/
structure FormData where
  tripNumber : String
  originLat : String
  originLng : String
  originPlace : String
  startTime : String
  destinationLat : String
  destinationLng : String
  destinationPlace : String
  endTime : String
  mode : String
  distance : String
  purpose : String
  companions : String
  frequency : String
  cost : JSVal
  deriving DecidableEq

namespace FormData

/-- The draft in which every field is the empty string. -/
def empty : FormData :=
  ⟨"", "", "", "", "", "", "", "", "", "", "", "", "", "", JSVal.str ""⟩

/-- The read `formData[field]`. -/
def get (fd : FormData) : Field → JSVal
  | Field.tripNumber => JSVal.str fd.tripNumber
  | Field.originLat => JSVal.str fd.originLat
  | Field.originLng => JSVal.str fd.originLng
  | Field.originPlace => JSVal.str fd.originPlace
  | Field.startTime => JSVal.str fd.startTime
  | Field.destinationLat => JSVal.str fd.destinationLat
  | Field.destinationLng => JSVal.str fd.destinationLng
  | Field.destinationPlace => JSVal.str fd.destinationPlace
  | Field.endTime => JSVal.str fd.endTime
  | Field.mode => JSVal.str fd.mode
  | Field.distance => JSVal.str fd.distance
  | Field.purpose => JSVal.str fd.purpose
  | Field.companions => JSVal.str fd.companions
  | Field.frequency => JSVal.str fd.frequency
  | Field.cost => fd.cost

/-- The update `{ ...formData, [field]: value }` with the text of an input. -/
def set (fd : FormData) (field : Field) (value : String) : FormData :=
  match field with
  | Field.tripNumber => { fd with tripNumber := value }
  | Field.originLat => { fd with originLat := value }
  | Field.originLng => { fd with originLng := value }
  | Field.originPlace => { fd with originPlace := value }
  | Field.startTime => { fd with startTime := value }
  | Field.destinationLat => { fd with destinationLat := value }
  | Field.destinationLng => { fd with destinationLng := value }
  | Field.destinationPlace => { fd with destinationPlace := value }
  | Field.endTime => { fd with endTime := value }
  | Field.mode => { fd with mode := value }
  | Field.distance => { fd with distance := value }
  | Field.purpose => { fd with purpose := value }
  | Field.companions => { fd with companions := value }
  | Field.frequency => { fd with frequency := value }
  | Field.cost => { fd with cost := JSVal.str value }

end FormData

/-- The component state the claims are about: `currentStep`, `formData` and
`loading`. -/
structure State where
  currentStep : ℤ
  formData : FormData
  loading : Bool
  deriving DecidableEq

/-- The state the component starts in. -/
def State.initial : State := ⟨1, FormData.empty, false⟩

/-! ## Messages, records and collaborators -/

/-- The record `payload` that `handleSubmit` sends to `POST /api/trips`. -/
structure Payload where
  trip_number : JSNum
  origin_lat : JSNum
  origin_lng : JSNum
  origin_place : String
  start_time : String
  destination_lat : JSNum
  destination_lng : JSNum
  destination_place : String
  end_time : String
  mode : String
  distance : JSNum
  purpose : String
  companions : JSNum
  frequency : String
  cost : JSNum
  deriving DecidableEq

/-- The calls of `showMessage` made by the form, by content. -/
inductive Message where
  | fillRequired
  | distanceAndCost (distanceKm : String) (autoPrice : JSNum)
  | updatedCost (autoPrice : JSNum) (distance : String)
  | saved
  | invalidResponse
  | serverError (error : String)
  | networkError
  deriving DecidableEq

/-- What a handler does besides updating the state, in the order it does it. -/
inductive Effect where
  | showMessage (m : Message)
  | shake
  | getSuggestions (query : String)
  | hideSuggestions
  | post (p : Payload)
  | onTripSaved
  deriving DecidableEq

/-- The body of the response to the `POST`, as `handleSubmit` reads it: empty
text, text that `JSON.parse` rejects, the JSON value `null`, or any other JSON
value with its `error` property when it has one. -/
inductive Body where
  | empty
  | invalid
  | jsonNull
  | json (error : Option String)
  deriving DecidableEq

/-- The outcome of the `fetch` in `handleSubmit`: the promise rejects, or a
response arrives with its `ok` flag and body. -/
inductive Response where
  | networkFailure
  | http (ok : Bool) (body : Body)
  deriving DecidableEq

/-! ## Stage navigation -/

/-- The table `requiredFields` of `validateStep`; `none` is the `undefined` of
a step that is not a key. -/
def requiredFields (step : ℤ) : Option (List Field) :=
  if step = 1 then some [Field.tripNumber]
  else if step = 2 then some [Field.originLat, Field.originLng, Field.startTime]
  else if step = 3 then some [Field.destinationLat, Field.destinationLng, Field.endTime]
  else if step = 4 then
    some [Field.mode, Field.distance, Field.purpose, Field.companions, Field.frequency,
      Field.cost]
  else none

/-- The function `validateStep(step)`: every required field of the step is
truthy; `none` is the `TypeError` of a step without an entry in the table. -/
def validateStep (fd : FormData) (step : ℤ) : Option Bool :=
  match requiredFields step with
  | some fields => some (fields.all (fun field => (fd.get field).truthy))
  | none => none

/-- The handler `nextStep()`; `none` is the exception out of `validateStep`,
which leaves the state as it was. -/
def nextStep (s : State) : Option (State × List Effect) :=
  match validateStep s.formData s.currentStep with
  | some true => some ({ s with currentStep := s.currentStep + 1 }, [])
  | some false => some (s, [Effect.shake, Effect.showMessage Message.fillRequired])
  | none => none

/-- The handler `prevStep()`. -/
def prevStep (s : State) : State := { s with currentStep := s.currentStep - 1 }

/-! ## Submission -/

/-- The object `payload` built by `handleSubmit`, with the draw `r` of
`Math.random()` and the two readings of the clock made arguments. -/
def buildPayload (fd : FormData) (r : ℚ) (nowStart nowEnd : String) : Payload where
  trip_number :=
    JSNum.orElse (parseInt (JSVal.str fd.tripNumber)) (JSNum.fin (⌊r * 1000⌋ : ℤ))
  origin_lat := JSNum.orElse (parseFloat (JSVal.str fd.originLat)) (JSNum.fin 0)
  origin_lng := JSNum.orElse (parseFloat (JSVal.str fd.originLng)) (JSNum.fin 0)
  origin_place := strOr fd.originPlace "Unknown Location"
  start_time := strOr fd.startTime nowStart
  destination_lat := JSNum.orElse (parseFloat (JSVal.str fd.destinationLat)) (JSNum.fin 0)
  destination_lng := JSNum.orElse (parseFloat (JSVal.str fd.destinationLng)) (JSNum.fin 0)
  destination_place := strOr fd.destinationPlace "Unknown Location"
  end_time := strOr fd.endTime nowEnd
  mode := strOr fd.mode "car"
  distance := JSNum.orElse (parseFloat (JSVal.str fd.distance)) (JSNum.fin 1)
  purpose := strOr fd.purpose "other"
  companions := JSNum.orElse (parseInt (JSVal.str fd.companions)) (JSNum.fin 0)
  frequency := strOr fd.frequency "rarely"
  cost := JSNum.orElse (parseFloat fd.cost) (JSNum.fin 0)

/-- The handler `handleSubmit(e)` of `InteractiveTripForm`, run to completion
on a given outcome of the `fetch`. -/
def handleSubmit (s : State) (r : ℚ) (nowStart nowEnd : String) (resp : Response) :
    State × List Effect :=
  let payload := buildPayload s.formData r nowStart nowEnd
  let kept : State := { s with loading := false }
  match resp with
  | Response.networkFailure =>
    (kept, [Effect.post payload, Effect.showMessage Message.networkError])
  | Response.http _ Body.invalid =>
    (kept, [Effect.post payload, Effect.showMessage Message.invalidResponse])
  | Response.http true _ =>
    (⟨1, FormData.empty, false⟩,
      [Effect.post payload, Effect.showMessage Message.saved, Effect.onTripSaved])
  | Response.http false Body.jsonNull =>
    (kept, [Effect.post payload, Effect.showMessage Message.networkError])
  | Response.http false (Body.json (some error)) =>
    (kept, [Effect.post payload,
      Effect.showMessage (Message.serverError (strOr error "Unknown error"))])
  | Response.http false _ =>
    (kept, [Effect.post payload, Effect.showMessage (Message.serverError "Unknown error")])

/-! ## Field edits -/

/-- The fields whose change recomputes the distance. -/
def coordinateFields : List Field :=
  [Field.originLat, Field.originLng, Field.destinationLat, Field.destinationLng]

/-- The fields whose change recomputes the cost. -/
def priceFields : List Field :=
  [Field.mode, Field.distance, Field.companions, Field.purpose]

/-- The test `originLat && originLng && destinationLat && destinationLng`. -/
def coordinatesPresent (fd : FormData) : Bool :=
  decide (fd.originLat ≠ "") && decide (fd.originLng ≠ "") &&
    decide (fd.destinationLat ≠ "") && decide (fd.destinationLng ≠ "")

/-- The handler `handleInputChange(field, value)`, with the day of the week an
argument: the state after its queued updates of `formData` have been applied
in order, and its effects. -/
noncomputable def handleInputChange (day : Fin 7) (s : State) (field : Field)
    (value : String) : State × List Effect :=
  let formData := s.formData
  let fd1 := formData.set field value
  let eff1 : List Effect :=
    if field = Field.destinationPlace then
      (if 2 < value.length then [Effect.getSuggestions value] else [Effect.hideSuggestions])
    else []
  let merged := formData.set field value
  let step2 : FormData × List Effect :=
    if field ∈ coordinateFields ∧ coordinatesPresent merged = true then
      let distanceKm := distanceKmText (parseFloat (JSVal.str merged.originLat))
        (parseFloat (JSVal.str merged.originLng))
        (parseFloat (JSVal.str merged.destinationLat))
        (parseFloat (JSVal.str merged.destinationLng))
      let fd2 := { fd1 with distance := distanceKm }
      if formData.mode ≠ "" then
        let autoPrice := calculatePrice day formData.mode (JSVal.str distanceKm)
          (parseIntOrZero formData.companions) formData.purpose
        if autoPrice.gt0 = true then
          ({ fd2 with distance := distanceKm, cost := JSVal.num autoPrice },
            eff1 ++ [Effect.showMessage (Message.distanceAndCost distanceKm autoPrice)])
        else (fd2, eff1)
      else (fd2, eff1)
    else (fd1, eff1)
  if field ∈ priceFields then
    let updatedData := formData.set field value
    let autoPrice := calculatePrice day updatedData.mode (JSVal.str updatedData.distance)
      (parseIntOrZero updatedData.companions) updatedData.purpose
    if autoPrice.gt0 = true then
      ({ s with formData := { step2.1.set field value with cost := JSVal.num autoPrice } },
        step2.2 ++
          (if autoPrice ≠ parseInt formData.cost then
            [Effect.showMessage (Message.updatedCost autoPrice updatedData.distance)]
          else []))
    else ({ s with formData := step2.1 }, step2.2)
  else ({ s with formData := step2.1 }, step2.2)

/-- The update made by `detectLocation('origin')` once the position and the
place name are known. -/
def setOrigin (s : State) (lat lng placeName time : String) : State :=
  { s with formData :=
      { s.formData with originLat := lat, originLng := lng, originPlace := placeName,
                        startTime := time } }

/-- The update made by `detectLocation('destination')`, `selectSuggestion`
and `searchDestination` once the place is known. -/
def setDestination (s : State) (lat lng placeName time : String) : State :=
  { s with formData :=
      { s.formData with destinationLat := lat, destinationLng := lng,
                        destinationPlace := placeName, endTime := time } }

/-! ## The transitions the form offers -/

/-- The events of the form: an edit of a field, the Next and Previous buttons,
a located origin or destination, and a submission with the draw of
`Math.random()`, the two clock readings and the outcome of the `fetch`. -/
inductive Action where
  | edit (day : Fin 7) (field : Field) (value : String)
  | next
  | prev
  | origin (lat lng placeName time : String)
  | destination (lat lng placeName time : String)
  | submit (r : ℚ) (nowStart nowEnd : String) (resp : Response)

/-- The events the rendered form makes available in a state: edits at any
step, Next at steps 1 to 3, Previous at steps 2 to 4, the origin at step 2,
the destination at step 3, submission at step 4. -/
def Offered (s : State) : Action → Prop
  | Action.edit _ _ _ => True
  | Action.next => s.currentStep = 1 ∨ s.currentStep = 2 ∨ s.currentStep = 3
  | Action.prev => s.currentStep = 2 ∨ s.currentStep = 3 ∨ s.currentStep = 4
  | Action.origin _ _ _ _ => s.currentStep = 2
  | Action.destination _ _ _ _ => s.currentStep = 3
  | Action.submit _ _ _ _ => s.currentStep = 4

/-- The state after an event (a handler that throws leaves the state as it
was). -/
noncomputable def step (s : State) : Action → State
  | Action.edit day field value => (handleInputChange day s field value).1
  | Action.next => ((nextStep s).getD (s, [])).1
  | Action.prev => prevStep s
  | Action.origin lat lng placeName time => setOrigin s lat lng placeName time
  | Action.destination lat lng placeName time => setDestination s lat lng placeName time
  | Action.submit r nowStart nowEnd resp => (handleSubmit s r nowStart nowEnd resp).1

/-- The states reachable from the initial state through offered events. -/
inductive Reachable : State → Prop where
  | init : Reachable State.initial
  | after (s : State) (a : Action) : Reachable s → Offered s a → Reachable (step s a)

/-- Whether an effect is the hand-over of a record to the persistence
collaborator. -/
def Effect.isPost : Effect → Bool
  | Effect.post _ => true
  | _ => false

/-! ## Order on numbers -/

namespace JSNum

/-- The comparison `x <= y` on numbers (false when either side is `NaN`). -/
def le : JSNum → JSNum → Prop
  | fin a, fin b => a ≤ b
  | ninf, fin _ => True
  | ninf, ninf => True
  | ninf, pinf => True
  | fin _, pinf => True
  | pinf, pinf => True
  | _, _ => False

/-- Whether a number is finite, that is neither `NaN` nor an infinity. -/
def isFinite : JSNum → Bool
  | fin _ => true
  | _ => false

end JSNum

/-! ## The server: `POST /api/trips` -/

/-- A JSON value as the server reads it from the request body: `null`, a
boolean, a number, a string, or an object or array (always truthy, contents not
looked at). -/
inductive JsonVal where
  | null
  | bool (b : Bool)
  | num (q : ℚ)
  | str (s : String)
  | other
  deriving DecidableEq

/-- JavaScript truthiness of a JSON value. -/
def JsonVal.truthy : JsonVal → Bool
  | JsonVal.null => false
  | JsonVal.bool b => b
  | JsonVal.num q => decide (q ≠ 0)
  | JsonVal.str s => decide (s ≠ "")
  | JsonVal.other => true

/-- The columns of the table `trips` that the handler fills. -/
inductive Column where
  | trip_number
  | origin_lat
  | origin_lng
  | origin_place
  | start_time
  | destination_lat
  | destination_lng
  | destination_place
  | end_time
  | mode
  | distance
  | purpose
  | companions
  | frequency
  | cost
  deriving DecidableEq

/-- A request body after `express.json()`: for each column the property of
that name, `none` when the body has no such property. -/
def RequestBody : Type := Column → Option JsonVal

/-- The expression `value || fallback` of the handler on a property that may
be absent. -/
def JsonVal.orDefault (value : Option JsonVal) (fallback : JsonVal) : JsonVal :=
  match value with
  | some v => if v.truthy = true then v else fallback
  | none => fallback

/-- The right-hand sides of the `||` in the argument list of `stmt.run`, with
the server's draw of `Math.random()` and its two clock readings made
arguments. -/
def serverDefault (r : ℚ) (nowStart nowEnd : String) : Column → JsonVal
  | Column.trip_number => JsonVal.num (⌊r * 1000⌋ : ℤ)
  | Column.origin_lat => JsonVal.num 0
  | Column.origin_lng => JsonVal.num 0
  | Column.origin_place => JsonVal.str "Unknown Location"
  | Column.start_time => JsonVal.str nowStart
  | Column.destination_lat => JsonVal.num 0
  | Column.destination_lng => JsonVal.num 0
  | Column.destination_place => JsonVal.str "Unknown Location"
  | Column.end_time => JsonVal.str nowEnd
  | Column.mode => JsonVal.str "car"
  | Column.distance => JsonVal.num 1
  | Column.purpose => JsonVal.str "other"
  | Column.companions => JsonVal.num 0
  | Column.frequency => JsonVal.str "rarely"
  | Column.cost => JsonVal.num 0

/-- The row that the handler of `POST /api/trips` hands to `stmt.run`, column
by column. -/
def insertedRow (body : RequestBody) (r : ℚ) (nowStart nowEnd : String) (col : Column) :
    JsonVal :=
  JsonVal.orDefault (body col) (serverDefault r nowStart nowEnd col)

/-- The body `testTrip` posted by `test-save.js`. -/
def testTrip : RequestBody
  | Column.trip_number => some (JsonVal.num 999)
  | Column.mode => some (JsonVal.str "test")
  | Column.distance => some (JsonVal.num 5)
  | Column.purpose => some (JsonVal.str "test")
  | _ => none

/-- A number as `JSON.stringify` writes it and `JSON.parse` reads it back: a
finite number is kept, `NaN` and the infinities become `null`. -/
def JsonVal.ofNumber : JSNum → JsonVal
  | JSNum.fin q => JsonVal.num q
  | _ => JsonVal.null

/-- The payload of `handleSubmit` as the JSON value of each of its
properties. -/
def Payload.json (p : Payload) : Column → JsonVal
  | Column.trip_number => JsonVal.ofNumber p.trip_number
  | Column.origin_lat => JsonVal.ofNumber p.origin_lat
  | Column.origin_lng => JsonVal.ofNumber p.origin_lng
  | Column.origin_place => JsonVal.str p.origin_place
  | Column.start_time => JsonVal.str p.start_time
  | Column.destination_lat => JsonVal.ofNumber p.destination_lat
  | Column.destination_lng => JsonVal.ofNumber p.destination_lng
  | Column.destination_place => JsonVal.str p.destination_place
  | Column.end_time => JsonVal.str p.end_time
  | Column.mode => JsonVal.str p.mode
  | Column.distance => JsonVal.ofNumber p.distance
  | Column.purpose => JsonVal.str p.purpose
  | Column.companions => JsonVal.ofNumber p.companions
  | Column.frequency => JsonVal.str p.frequency
  | Column.cost => JsonVal.ofNumber p.cost

/-- The request body the server receives when the client posts a payload. -/
def Payload.body (p : Payload) : RequestBody := fun col => some (p.json col)

/-! ## The legacy page -/

/-- The `input` listener that `public/script.js` puts on the four coordinate
fields: the new text of the distance field, given the texts of the four
coordinate fields and the old text of the distance field. -/
noncomputable def legacyCoordinateInput (originLat originLng destinationLat
    destinationLng distance : String) : String :=
  let oLat := parseFloat (JSVal.str originLat)
  let oLng := parseFloat (JSVal.str originLng)
  let dLat := parseFloat (JSVal.str destinationLat)
  let dLng := parseFloat (JSVal.str destinationLng)
  if (oLat.truthy && oLng.truthy && dLat.truthy && dLng.truthy) = true then
    distanceKmText oLat oLng dLat dLng
  else distance

/-! ## Machine arithmetic

The operators above compute exactly.  The code computes in IEEE 754 doubles:
each `*`, `+`, `-`, `/` and each decimal literal or parsed text gives the
double nearest to the exact result.  Below, the rounding is an argument `rnd`,
which sends an exact result to the machine number it is stored as; `JSNum.fin`
is the exact reading and `roundDouble` the reading in doubles. -/

/-- The integer nearest to `x`, a tie going to the even one. -/
def roundHalfEven (x : ℚ) : ℤ :=
  let f := ⌊x⌋
  if x - f < 1 / 2 then f
  else if 1 / 2 < x - f then f + 1
  else if f % 2 = 0 then f else f + 1

/-- The IEEE 754 binary64 number nearest to `q`, a tie going to the even
significand: 53 significant bits, least exponent `-1022` (below it the spacing
stays `2 ^ (-1074)`), an infinity from `2 ^ 1024` on. -/
def roundDouble (q : ℚ) : JSNum :=
  if q = 0 then JSNum.fin 0
  else
    let a := |q|
    let e : ℤ := max (Int.log 2 a) (-1022)
    let ulp : ℚ := 2 ^ (e - 52)
    let r : ℚ := roundHalfEven (a / ulp) * ulp
    if (2 : ℚ) ^ (1024 : ℤ) ≤ r then (if q < 0 then JSNum.ninf else JSNum.pinf)
    else JSNum.fin (if q < 0 then -r else r)

namespace JSNum

/-- The `*` operator with its result rounded by `rnd`. -/
def mulR (rnd : ℚ → JSNum) : JSNum → JSNum → JSNum
  | fin a, fin b => rnd (a * b)
  | x, y => mul x y

/-- The `+` operator with its result rounded by `rnd`. -/
def addR (rnd : ℚ → JSNum) : JSNum → JSNum → JSNum
  | fin a, fin b => rnd (a + b)
  | x, y => add x y

/-- The `-` operator with its result rounded by `rnd`. -/
def subR (rnd : ℚ → JSNum) : JSNum → JSNum → JSNum
  | fin a, fin b => rnd (a - b)
  | x, y => sub x y

/-- The `/` operator with its result rounded by `rnd`; a zero divisor is
taken as `+0`. -/
def divR (rnd : ℚ → JSNum) : JSNum → JSNum → JSNum
  | nan, _ => nan
  | _, nan => nan
  | fin a, fin b =>
    if b = 0 then (if a = 0 then nan else if 0 < a then pinf else ninf) else rnd (a / b)
  | fin _, pinf => fin 0
  | fin _, ninf => fin 0
  | pinf, fin b => if 0 ≤ b then pinf else ninf
  | ninf, fin b => if 0 ≤ b then ninf else pinf
  | _, _ => nan

end JSNum

/-- The integer nearest to a number, in the words of the specification. -/
def nearestInteger : JSNum → JSNum
  | JSNum.fin q => JSNum.fin (round q : ℤ)
  | x => x

/-- The call `parseFloat(v)` with the value of a parsed text rounded by
`rnd`; a number is returned as it is. -/
def parseFloatWith (rnd : ℚ → JSNum) : JSVal → JSNum
  | JSVal.num n => n
  | JSVal.str s =>
    match parseFloatChars s.toList with
    | JSNum.fin q => rnd q
    | x => x

/-- The function `calculatePrice(mode, distance, companions, purpose)` in
machine arithmetic: every operator, decimal literal and parsed text of the
source goes through `rnd`; the integer literals and `Math.max`, `Math.round`
are exact. -/
def calculatePriceWith (rnd : ℚ → JSNum) (day : Fin 7) (mode : String) (distance : JSVal)
    (companions : ℤ) (purpose : String) : JSNum :=
  if mode = "" ∨ distance.truthy = false then JSNum.fin 0
  else
    let price := JSNum.mulR rnd (toNumber (basePrices mode)) (parseFloatWith rnd distance)
    let price :=
      if mode = "flight" then
        JSNum.addR rnd (JSNum.fin 4500)
          (JSNum.mulR rnd (parseFloatWith rnd distance) (JSNum.fin 3))
      else price
    let price :=
      if 0 < companions ∧ mode ∈ ["car", "flight"] then
        JSNum.mulR rnd price
          (JSNum.addR rnd (JSNum.fin 1) (JSNum.mulR rnd (JSNum.fin companions) (rnd 0.3)))
      else price
    let price := if purpose = "medical" then JSNum.mulR rnd price (rnd 1.5) else price
    let price := if purpose = "work" then JSNum.mulR rnd price (rnd 1.2) else price
    let price := if purpose = "education" then JSNum.mulR rnd price (rnd 0.8) else price
    let price :=
      if mode ∈ ["walking", "cycling"] then
        JSNum.max0 (JSNum.subR rnd price (JSNum.fin 20))
      else price
    let isWeekend : Bool := decide (day.val % 6 = 0)
    let price :=
      if isWeekend = true ∧ mode ∈ ["car", "bus"] then JSNum.mulR rnd price (rnd 1.3)
      else price
    JSNum.round price

/-- The specification's pricing pipeline, written from its words in the same
machine arithmetic: base price, companion factor, purpose factor, eco
discount, weekend surge, nearest integer. -/
def specPriceWith (rnd : ℚ → JSNum) (day : Fin 7) (mode : String) (d : ℚ) (c : ℤ)
    (p : String) : JSNum :=
  let price : JSNum :=
    if mode = "flight" then
      JSNum.addR rnd (JSNum.fin 4500) (JSNum.mulR rnd (JSNum.fin 3) (JSNum.fin d))
    else JSNum.mulR rnd (JSNum.fin (specRate mode)) (JSNum.fin d)
  let price : JSNum :=
    if 0 < c ∧ (mode = "car" ∨ mode = "flight") then
      JSNum.mulR rnd price
        (JSNum.addR rnd (JSNum.fin 1) (JSNum.mulR rnd (rnd 0.3) (JSNum.fin c)))
    else price
  let price : JSNum :=
    if p = "medical" then JSNum.mulR rnd price (rnd 1.5)
    else if p = "work" then JSNum.mulR rnd price (rnd 1.2)
    else if p = "education" then JSNum.mulR rnd price (rnd 0.8)
    else price
  let price : JSNum :=
    if mode = "walking" ∨ mode = "cycling" then JSNum.max0 (JSNum.subR rnd price (JSNum.fin 20))
    else price
  let price : JSNum :=
    if (day = Saturday ∨ day = Sunday) ∧ (mode = "car" ∨ mode = "bus") then
      JSNum.mulR rnd price (rnd 1.3)
    else price
  nearestInteger price

/-! ## The haversine distance in machine arithmetic -/

/-- The functions and the constant of `Math` that `calculateDistance` calls.
Their values are those of the engine that runs the code, so they are
arguments here. -/
structure MathLib where
  pi : JSNum
  sin : JSNum → JSNum
  cos : JSNum → JSNum
  sqrt : JSNum → JSNum
  atan2 : JSNum → JSNum → JSNum

/-- The constant `a` of `calculateDistance` in machine arithmetic. -/
def haversineAWith (rnd : ℚ → JSNum) (M : MathLib) (lat1 lng1 lat2 lng2 : JSNum) : JSNum :=
  let dLat := JSNum.divR rnd (JSNum.mulR rnd (JSNum.subR rnd lat2 lat1) M.pi) (JSNum.fin 180)
  let dLng := JSNum.divR rnd (JSNum.mulR rnd (JSNum.subR rnd lng2 lng1) M.pi) (JSNum.fin 180)
  JSNum.addR rnd
    (JSNum.mulR rnd (M.sin (JSNum.divR rnd dLat (JSNum.fin 2)))
      (M.sin (JSNum.divR rnd dLat (JSNum.fin 2))))
    (JSNum.mulR rnd
      (JSNum.mulR rnd
        (JSNum.mulR rnd (M.cos (JSNum.divR rnd (JSNum.mulR rnd lat1 M.pi) (JSNum.fin 180)))
          (M.cos (JSNum.divR rnd (JSNum.mulR rnd lat2 M.pi) (JSNum.fin 180))))
        (M.sin (JSNum.divR rnd dLng (JSNum.fin 2))))
      (M.sin (JSNum.divR rnd dLng (JSNum.fin 2))))

/-- The function `calculateDistance(lat1, lng1, lat2, lng2)` in machine
arithmetic. -/
def calculateDistanceWith (rnd : ℚ → JSNum) (M : MathLib) (lat1 lng1 lat2 lng2 : JSNum) :
    JSNum :=
  let R := JSNum.fin 6371
  let a := haversineAWith rnd M lat1 lng1 lat2 lng2
  let c := JSNum.mulR rnd (JSNum.fin 2)
    (M.atan2 (M.sqrt a) (M.sqrt (JSNum.subR rnd (JSNum.fin 1) a)))
  JSNum.mulR rnd R c

/-- The double `Math.PI`. -/
def piDouble : ℚ := 884279719003555 / 2 ^ 48

/-- The doubles that `Math` returns at the arguments `calculateDistance`
reaches for the points `(8, 0)` and `(-8, 180)`, each the double nearest to
the exact value; `NaN` stands at every argument the trace does not reach. -/
def traceMath : MathLib where
  pi := JSNum.fin piDouble
  sin := fun x =>
    if x = JSNum.fin (-(5030569068109113 / 36028797018963968)) then
      JSNum.fin (-(5014239404989977 / 36028797018963968))
    else if x = JSNum.fin (884279719003555 / 562949953421312) then JSNum.fin 1
    else JSNum.nan
  cos := fun x =>
    if x = JSNum.fin (5030569068109113 / 36028797018963968) ∨
        x = JSNum.fin (-(5030569068109113 / 36028797018963968)) then
      JSNum.fin (4459770905381437 / 4503599627370496)
    else JSNum.nan
  sqrt := fun x =>
    if x = JSNum.fin (4503599627370497 / 4503599627370496) then JSNum.fin 1 else JSNum.nan
  atan2 := fun _ _ => JSNum.nan

/-! ## Facts about the number model -/

namespace JSNum

@[simp] theorem mul_fin (a b : ℚ) : mul (fin a) (fin b) = fin (a * b) := rfl

@[simp] theorem add_fin (a b : ℚ) : add (fin a) (fin b) = fin (a + b) := rfl

@[simp] theorem sub_fin (a b : ℚ) : sub (fin a) (fin b) = fin (a - b) := rfl

@[simp] theorem max0_fin (q : ℚ) : max0 (fin q) = fin (max 0 q) := rfl

@[simp] theorem round_fin (q : ℚ) : round (fin q) = fin (⌊q + 1 / 2⌋ : ℤ) := rfl

@[simp] theorem mul_nan_left (x : JSNum) : mul nan x = nan := by
  cases x <;> rfl

@[simp] theorem mul_nan_right (x : JSNum) : mul x nan = nan := by
  cases x <;> rfl

@[simp] theorem add_nan_left (x : JSNum) : add nan x = nan := by
  cases x <;> rfl

@[simp] theorem add_nan_right (x : JSNum) : add x nan = nan := by
  cases x <;> rfl

@[simp] theorem sub_nan_left (x : JSNum) : sub nan x = nan := by
  cases x <;> rfl

@[simp] theorem max0_nan : max0 nan = nan := rfl

@[simp] theorem round_nan : round nan = nan := rfl

end JSNum

theorem weekend_iff (day : Fin 7) : day.val % 6 = 0 ↔ day = Saturday ∨ day = Sunday := by
  fin_cases day <;> simp [Saturday, Sunday]

theorem parseFloatChars_nil : parseFloatChars [] = JSNum.nan := by
  simp [parseFloatChars, takeSign]

/-- A value that parses to a non-zero finite number is truthy. -/
theorem truthy_of_parseFloat (dist : JSVal) (d : ℚ) (h : parseFloat dist = JSNum.fin d)
    (hd : d ≠ 0) : dist.truthy = true := by
  cases dist with
  | num n =>
    simp only [parseFloat] at h
    subst h
    simp [JSVal.truthy, JSNum.truthy, hd]
  | str s =>
    simp only [JSVal.truthy, decide_eq_true_eq]
    intro hs
    subst hs
    simp [parseFloat, parseFloatChars_nil] at h

/-- The pipeline of `calculatePrice` past its guard, on a distance that parses
to the finite number `d`. -/
theorem calculatePrice_of_parse (day : Fin 7) (mode : String) (dist : JSVal) (d : ℚ)
    (c : ℤ) (p : String) (hmode : mode ∈ modes) (htruthy : dist.truthy = true)
    (h : parseFloat dist = JSNum.fin d) :
    calculatePrice day mode dist c p = JSNum.fin (specPrice day mode d c p) := by
  have hw := weekend_iff day
  have hp : p = "medical" ∨ p = "work" ∨ p = "education" ∨
      (p ≠ "medical" ∧ p ≠ "work" ∧ p ≠ "education") := by tauto
  simp only [modes, List.mem_cons, List.mem_singleton, List.mem_nil_iff, or_false] at hmode
  rcases hp with rfl | rfl | rfl | ⟨h1, h2, h3⟩ <;>
    rcases hmode with rfl | rfl | rfl | rfl | rfl | rfl <;>
    simp [calculatePrice, specPrice, specRate, basePrices, toNumber, round_eq, *] <;>
    split_ifs <;> simp <;> ring_nf

theorem specRate_nonneg (mode : String) : 0 ≤ specRate mode := by
  unfold specRate
  split_ifs <;> norm_num

/-- On a non-negative distance the specification's pipeline never goes below
zero. -/
theorem specPrice_nonneg (day : Fin 7) (mode : String) (d : ℚ) (c : ℤ) (p : String)
    (hd : 0 ≤ d) : 0 ≤ specPrice day mode d c p := by
  have hr := specRate_nonneg mode
  have hbase : (0 : ℚ) ≤ if mode = "flight" then 4500 + 3 * d else specRate mode * d := by
    split_ifs
    · positivity
    · exact mul_nonneg hr hd
  simp only [specPrice, round_eq]
  generalize (if mode = "flight" then 4500 + 3 * d else specRate mode * d) = x0 at hbase
  have h1 : (0 : ℚ) ≤
      if 0 < c ∧ (mode = "car" ∨ mode = "flight") then x0 * (1 + 0.3 * c) else x0 := by
    split_ifs with hc
    · have hc' : (0 : ℚ) < c := by exact_mod_cast hc.1
      positivity
    · exact hbase
  generalize (if 0 < c ∧ (mode = "car" ∨ mode = "flight") then x0 * (1 + 0.3 * c) else x0)
    = x1 at h1
  have h2 : (0 : ℚ) ≤
      if p = "medical" then x1 * 1.5 else if p = "work" then x1 * 1.2
      else if p = "education" then x1 * 0.8 else x1 := by
    split_ifs <;> first | exact h1 | positivity
  generalize (if p = "medical" then x1 * 1.5 else if p = "work" then x1 * 1.2
      else if p = "education" then x1 * 0.8 else x1) = x2 at h2
  have h3 : (0 : ℚ) ≤ if mode = "walking" ∨ mode = "cycling" then max 0 (x2 - 20) else x2 := by
    split_ifs
    · exact le_max_left _ _
    · exact h2
  generalize (if mode = "walking" ∨ mode = "cycling" then max 0 (x2 - 20) else x2) = x3 at h3
  have h4 : (0 : ℚ) ≤
      if (day = Saturday ∨ day = Sunday) ∧ (mode = "car" ∨ mode = "bus") then x3 * 1.3
      else x3 := by
    split_ifs
    · positivity
    · exact h3
  generalize (if (day = Saturday ∨ day = Sunday) ∧ (mode = "car" ∨ mode = "bus") then x3 * 1.3
      else x3) = x4 at h4
  exact Int.floor_nonneg.mpr (by positivity)

/-- Past its guard, `calculatePrice` propagates the `NaN` of an unparseable
distance to its result, whatever the mode. -/
theorem calculatePrice_of_nan (day : Fin 7) (mode : String) (dist : JSVal) (c : ℤ)
    (p : String) (hmode : mode ≠ "") (htruthy : dist.truthy = true)
    (h : parseFloat dist = JSNum.nan) :
    calculatePrice day mode dist c p = JSNum.nan := by
  simp [calculatePrice, hmode, htruthy, h]

theorem haversineA_symm (lat1 lng1 lat2 lng2 : ℝ) :
    haversineA lat1 lng1 lat2 lng2 = haversineA lat2 lng2 lat1 lng1 := by
  have hLat : (lat1 - lat2) * Real.pi / 180 / 2 = -((lat2 - lat1) * Real.pi / 180 / 2) := by
    ring
  have hLng : (lng1 - lng2) * Real.pi / 180 / 2 = -((lng2 - lng1) * Real.pi / 180 / 2) := by
    ring
  simp only [haversineA, hLat, hLng, Real.sin_neg]
  ring

theorem haversineA_self (lat lng : ℝ) : haversineA lat lng lat lng = 0 := by
  simp [haversineA]

theorem atan2_zero_one : atan2 0 1 = 0 := by
  have h : (⟨1, 0⟩ : ℂ) = 1 := rfl
  rw [atan2, h, Complex.arg_one]

/-! ## Facts about the form -/

theorem handleInputChange_currentStep (day : Fin 7) (s : State) (field : Field)
    (value : String) : (handleInputChange day s field value).1.currentStep = s.currentStep := by
  simp only [handleInputChange]
  split_ifs <;> rfl

theorem handleSubmit_currentStep (s : State) (r : ℚ) (nowStart nowEnd : String)
    (resp : Response) :
    (handleSubmit s r nowStart nowEnd resp).1.currentStep = s.currentStep ∨
      (handleSubmit s r nowStart nowEnd resp).1.currentStep = 1 := by
  rcases resp with _ | ⟨ok, body⟩
  · exact Or.inl rfl
  · cases ok <;> rcases body with _ | _ | _ | ⟨_ | error⟩ <;> simp [handleSubmit]

theorem nextStep_currentStep (s : State) :
    ((nextStep s).getD (s, [])).1.currentStep = s.currentStep ∨
      ((nextStep s).getD (s, [])).1.currentStep = s.currentStep + 1 := by
  unfold nextStep
  rcases validateStep s.formData s.currentStep with _ | _ | _ <;> simp

theorem handleSubmit_posts (s : State) (r : ℚ) (nowStart nowEnd : String) (resp : Response) :
    (handleSubmit s r nowStart nowEnd resp).2.filter Effect.isPost =
      [Effect.post (buildPayload s.formData r nowStart nowEnd)] := by
  rcases resp with _ | ⟨ok, body⟩
  · rfl
  · cases ok <;> rcases body with _ | _ | _ | ⟨_ | error⟩ <;> rfl

theorem parseInt_empty : parseInt (JSVal.str "") = JSNum.nan := by
  simp [parseInt, parseIntChars, takeSign, parseIntMagnitude]

theorem parseFloat_empty : parseFloat (JSVal.str "") = JSNum.nan := by
  simp [parseFloat, parseFloatChars_nil]

theorem orElse_nan (b : JSNum) : JSNum.orElse JSNum.nan b = b := rfl

theorem orElse_fin_of_ne (q : ℚ) (b : JSNum) (hq : q ≠ 0) :
    JSNum.orElse (JSNum.fin q) b = JSNum.fin q := by
  simp [JSNum.orElse, JSNum.truthy, hq]

theorem orElse_fin_zero (q : ℚ) : JSNum.orElse (JSNum.fin q) (JSNum.fin 0) = JSNum.fin q := by
  by_cases hq : q = 0
  · subst hq
    simp [JSNum.orElse, JSNum.truthy]
  · exact orElse_fin_of_ne q _ hq

theorem strOr_of_ne (a b : String) (ha : a ≠ "") : strOr a b = a := by
  simp [strOr, ha]

theorem strOr_empty (b : String) : strOr "" b = b := by
  simp [strOr]

theorem not_mem_priceFields (field : Field) (h : field ∈ coordinateFields) :
    field ∉ priceFields := by
  simp only [coordinateFields, List.mem_cons, List.mem_singleton, List.mem_nil_iff,
    or_false] at h
  rcases h with rfl | rfl | rfl | rfl <;> simp [priceFields]

theorem not_mem_coordinateFields (field : Field) (h : field ∈ priceFields) :
    field ∉ coordinateFields := fun hc => not_mem_priceFields field hc h

theorem FormData.get_set (fd : FormData) (field other : Field) (value : String) :
    (fd.set field value).get other = if other = field then JSVal.str value else fd.get other := by
  cases field <;> cases other <;> simp [FormData.get, FormData.set]

theorem FormData.set_set (fd : FormData) (field : Field) (value : String) :
    (fd.set field value).set field value = fd.set field value := by
  cases field <;> rfl

/-- The cost after an edit of a coordinate field that leaves the four
coordinates present while a mode is set: the computed price when it is above
0, the cost the draft had otherwise. -/
theorem handleInputChange_coordinate_cost (day : Fin 7) (s : State) (field : Field)
    (value : String) (hfield : field ∈ coordinateFields)
    (hall : coordinatesPresent (s.formData.set field value) = true)
    (hmode : s.formData.mode ≠ "") :
    (handleInputChange day s field value).1.formData.cost =
      if (calculatePrice day s.formData.mode
          (JSVal.str (handleInputChange day s field value).1.formData.distance)
          (parseIntOrZero s.formData.companions) s.formData.purpose).gt0 = true then
        JSVal.num (calculatePrice day s.formData.mode
          (JSVal.str (handleInputChange day s field value).1.formData.distance)
          (parseIntOrZero s.formData.companions) s.formData.purpose)
      else s.formData.cost := by
  have hprice := not_mem_priceFields field hfield
  have hkeep : (s.formData.set field value).cost = s.formData.cost := by
    simp only [coordinateFields, List.mem_cons, List.mem_singleton, List.mem_nil_iff,
      or_false] at hfield
    rcases hfield with rfl | rfl | rfl | rfl <;> rfl
  simp only [handleInputChange, hprice, hfield, hall, hmode, and_self, if_true, if_false,
    ne_eq, not_false_eq_true]
  split_ifs <;> simp_all

/-- The draft after an edit of `mode`, `distance`, `companions` or `purpose`:
the edited draft, with the computed price as cost when that price is above
0. -/
theorem handleInputChange_price (day : Fin 7) (s : State) (field : Field) (value : String)
    (hfield : field ∈ priceFields) :
    (handleInputChange day s field value).1.formData =
      if (calculatePrice day (s.formData.set field value).mode
          (JSVal.str (s.formData.set field value).distance)
          (parseIntOrZero (s.formData.set field value).companions)
          (s.formData.set field value).purpose).gt0 = true then
        { s.formData.set field value with
          cost := JSVal.num (calculatePrice day (s.formData.set field value).mode
            (JSVal.str (s.formData.set field value).distance)
            (parseIntOrZero (s.formData.set field value).companions)
            (s.formData.set field value).purpose) }
      else s.formData.set field value := by
  have hcoord := not_mem_coordinateFields field hfield
  simp only [handleInputChange, hcoord, hfield, false_and, if_true, if_false,
    FormData.set_set]
  split_ifs <;> rfl

/-- For mode walking the computed price is never above 0, whatever the
distance holds. -/
theorem calculatePrice_walking_not_gt0 (day : Fin 7) (dist : JSVal) (c : ℤ) (p : String) :
    (calculatePrice day "walking" dist c p).gt0 = false := by
  by_cases ht : dist.truthy = true
  · rcases h : parseFloat dist with _ | _ | _ | d
    · rw [calculatePrice_of_nan day "walking" dist c p (by decide) ht h]
      rfl
    · simp [calculatePrice, ht, h, basePrices, toNumber, JSNum.mul, JSNum.sign, JSNum.ofSign,
        JSNum.gt0]
    · simp [calculatePrice, ht, h, basePrices, toNumber, JSNum.mul, JSNum.sign, JSNum.ofSign,
        JSNum.gt0]
    · rw [calculatePrice_of_parse day "walking" dist d c p (by simp [modes]) ht h]
      have hp : p = "medical" ∨ p = "work" ∨ p = "education" ∨
          (p ≠ "medical" ∧ p ≠ "work" ∧ p ≠ "education") := by tauto
      rcases hp with rfl | rfl | rfl | ⟨h1, h2, h3⟩ <;>
        simp [specPrice, specRate, JSNum.gt0, *]
  · have hf : dist.truthy = false := by simpa using ht
    simp [calculatePrice, hf, JSNum.gt0]

/-- The product of the two cosines in the haversine term, in terms of the sine
of half the latitude difference and the cosine of the latitude sum. -/
theorem cos_mul_cos_eq (p q : ℝ) :
    Real.cos p * Real.cos q =
      (1 - 2 * (Real.sin ((q - p) / 2) * Real.sin ((q - p) / 2)) + Real.cos (p + q)) / 2 := by
  have hsub : Real.cos (q - p) = 1 - 2 * (Real.sin ((q - p) / 2) * Real.sin ((q - p) / 2)) := by
    have h2 : q - p = 2 * ((q - p) / 2) := by ring
    have hc := Real.cos_two_mul ((q - p) / 2)
    have hs := Real.sin_sq_add_cos_sq ((q - p) / 2)
    rw [← h2] at hc
    nlinarith
  have h1 := Real.cos_sub q p
  have h2 := Real.cos_add p q
  rw [← hsub]
  linarith

theorem haversineA_mem_unit (lat1 lng1 lat2 lng2 : ℝ) :
    0 ≤ haversineA lat1 lng1 lat2 lng2 ∧ haversineA lat1 lng1 lat2 lng2 ≤ 1 := by
  have hdiff : (lat2 - lat1) * Real.pi / 180 / 2 =
      (lat2 * Real.pi / 180 - lat1 * Real.pi / 180) / 2 := by ring
  have hprod := cos_mul_cos_eq (lat1 * Real.pi / 180) (lat2 * Real.pi / 180)
  have hx1 := Real.sin_sq_le_one ((lat2 * Real.pi / 180 - lat1 * Real.pi / 180) / 2)
  have hx0 := sq_nonneg (Real.sin ((lat2 * Real.pi / 180 - lat1 * Real.pi / 180) / 2))
  have hC1 := Real.neg_one_le_cos (lat1 * Real.pi / 180 + lat2 * Real.pi / 180)
  have hC2 := Real.cos_le_one (lat1 * Real.pi / 180 + lat2 * Real.pi / 180)
  have hy1 := Real.sin_sq_le_one ((lng2 - lng1) * Real.pi / 180 / 2)
  have hy0 := sq_nonneg (Real.sin ((lng2 - lng1) * Real.pi / 180 / 2))
  simp only [haversineA, hdiff]
  rw [hprod]
  generalize Real.sin ((lat2 * Real.pi / 180 - lat1 * Real.pi / 180) / 2) = sx at hx0 hx1 ⊢
  generalize Real.cos (lat1 * Real.pi / 180 + lat2 * Real.pi / 180) = C at hC1 hC2 ⊢
  generalize Real.sin ((lng2 - lng1) * Real.pi / 180 / 2) = sy at hy0 hy1 ⊢
  have ha := mul_nonneg hx0 (sub_nonneg.mpr hy1)
  have hb : 0 ≤ sy ^ 2 * (1 + C) := mul_nonneg hy0 (by linarith)
  have hc := mul_nonneg (sub_nonneg.mpr hx1) (sub_nonneg.mpr hy1)
  have hd : 0 ≤ sy ^ 2 * (1 - C) := mul_nonneg hy0 (by linarith)
  constructor <;> nlinarith

/-- The specification's pipeline is monotone in the distance. -/
theorem specPrice_mono (day : Fin 7) (mode : String) (d1 d2 : ℚ) (c : ℤ) (p : String)
    (hd : d1 ≤ d2) : specPrice day mode d1 c p ≤ specPrice day mode d2 c p := by
  have hr := specRate_nonneg mode
  have h0 : (if mode = "flight" then 4500 + 3 * d1 else specRate mode * d1) ≤
      if mode = "flight" then 4500 + 3 * d2 else specRate mode * d2 := by
    split_ifs
    · linarith
    · exact mul_le_mul_of_nonneg_left hd hr
  simp only [specPrice, round_eq]
  generalize (if mode = "flight" then 4500 + 3 * d1 else specRate mode * d1) = x0 at h0 ⊢
  generalize (if mode = "flight" then 4500 + 3 * d2 else specRate mode * d2) = y0 at h0 ⊢
  have h1 : (if 0 < c ∧ (mode = "car" ∨ mode = "flight") then x0 * (1 + 0.3 * c) else x0) ≤
      if 0 < c ∧ (mode = "car" ∨ mode = "flight") then y0 * (1 + 0.3 * c) else y0 := by
    split_ifs with hc
    · have hc' : (0 : ℚ) < c := by exact_mod_cast hc.1
      exact mul_le_mul_of_nonneg_right h0 (by positivity)
    · exact h0
  generalize (if 0 < c ∧ (mode = "car" ∨ mode = "flight") then x0 * (1 + 0.3 * c) else x0)
    = x1 at h1 ⊢
  generalize (if 0 < c ∧ (mode = "car" ∨ mode = "flight") then y0 * (1 + 0.3 * c) else y0)
    = y1 at h1 ⊢
  have h2 : (if p = "medical" then x1 * 1.5 else if p = "work" then x1 * 1.2
      else if p = "education" then x1 * 0.8 else x1) ≤
      if p = "medical" then y1 * 1.5 else if p = "work" then y1 * 1.2
      else if p = "education" then y1 * 0.8 else y1 := by
    split_ifs <;> first | exact h1 | exact mul_le_mul_of_nonneg_right h1 (by norm_num)
  generalize (if p = "medical" then x1 * 1.5 else if p = "work" then x1 * 1.2
      else if p = "education" then x1 * 0.8 else x1) = x2 at h2 ⊢
  generalize (if p = "medical" then y1 * 1.5 else if p = "work" then y1 * 1.2
      else if p = "education" then y1 * 0.8 else y1) = y2 at h2 ⊢
  have h3 : (if mode = "walking" ∨ mode = "cycling" then max 0 (x2 - 20) else x2) ≤
      if mode = "walking" ∨ mode = "cycling" then max 0 (y2 - 20) else y2 := by
    split_ifs
    · exact max_le_max (le_refl 0) (by linarith)
    · exact h2
  generalize (if mode = "walking" ∨ mode = "cycling" then max 0 (x2 - 20) else x2) = x3 at h3 ⊢
  generalize (if mode = "walking" ∨ mode = "cycling" then max 0 (y2 - 20) else y2) = y3 at h3 ⊢
  have h4 : (if (day = Saturday ∨ day = Sunday) ∧ (mode = "car" ∨ mode = "bus") then x3 * 1.3
      else x3) ≤
      if (day = Saturday ∨ day = Sunday) ∧ (mode = "car" ∨ mode = "bus") then y3 * 1.3
      else y3 := by
    split_ifs
    · exact mul_le_mul_of_nonneg_right h3 (by norm_num)
    · exact h3
  exact Int.floor_mono (by linarith)

/-- For a mode other than car and bus the weekend test cannot fire, so the
price is the same on every day. -/
theorem calculatePrice_day_irrelevant (day1 day2 : Fin 7) (mode : String) (dist : JSVal)
    (c : ℤ) (p : String) (hcar : mode ≠ "car") (hbus : mode ≠ "bus") :
    calculatePrice day1 mode dist c p = calculatePrice day2 mode dist c p := by
  simp [calculatePrice, hcar, hbus]

/-! ## Facts about the server and the legacy page -/

theorem orDefault_of_finite (x : JSNum) (hx : x.isFinite = true) :
    JsonVal.orDefault (some (JsonVal.ofNumber x)) (JsonVal.num 0) = JsonVal.ofNumber x := by
  rcases x with _ | _ | _ | q
  · cases hx
  · cases hx
  · cases hx
  · by_cases hq : q = 0 <;> simp [JsonVal.orDefault, JsonVal.ofNumber, JsonVal.truthy, hq]

theorem orDefault_of_ne_zero (x : JSNum) (fallback : JsonVal) (hx : x.isFinite = true)
    (h0 : x ≠ JSNum.fin 0) :
    JsonVal.orDefault (some (JsonVal.ofNumber x)) fallback = JsonVal.ofNumber x := by
  rcases x with _ | _ | _ | q
  · cases hx
  · cases hx
  · cases hx
  · have hq : q ≠ 0 := fun h => h0 (by rw [h])
    simp [JsonVal.orDefault, JsonVal.ofNumber, JsonVal.truthy, hq]

theorem orDefault_of_str (text : String) (fallback : JsonVal) (h : text ≠ "") :
    JsonVal.orDefault (some (JsonVal.str text)) fallback = JsonVal.str text := by
  simp [JsonVal.orDefault, JsonVal.truthy, h]

theorem strOr_ne_empty (a b : String) (hb : b ≠ "") : strOr a b ≠ "" := by
  unfold strOr
  split_ifs with ha
  · exact ha
  · exact hb

theorem orElse_ne_zero (a b : JSNum) (hb : b ≠ JSNum.fin 0) :
    JSNum.orElse a b ≠ JSNum.fin 0 := by
  unfold JSNum.orElse
  split_ifs with ha
  · intro h
    rw [h] at ha
    simp [JSNum.truthy] at ha
  · exact hb

theorem parseInt_str_cases (text : String) :
    parseInt (JSVal.str text) = JSNum.nan ∨
      ∃ n : ℤ, parseInt (JSVal.str text) = JSNum.fin n := by
  simp only [parseInt]
  rcases parseIntChars text.toList with _ | n
  · exact Or.inl rfl
  · exact Or.inr ⟨n, rfl⟩

theorem orElse_parseInt_isFinite (text : String) (q : ℚ) :
    (JSNum.orElse (parseInt (JSVal.str text)) (JSNum.fin q)).isFinite = true := by
  rcases parseInt_str_cases text with h | ⟨n, h⟩ <;> rw [h]
  · rfl
  · unfold JSNum.orElse
    split_ifs <;> rfl

theorem toFixed2_ne_empty (x : ℝ) : toFixed2 x ≠ "" := by
  have habs : ∀ y : ℝ, 0 < (toFixed2Abs y).length := by
    intro y
    simp only [toFixed2Abs, String.length_append]
    have : (".").length = 1 := rfl
    omega
  intro h
  have hlen := congrArg String.length h
  unfold toFixed2 at hlen
  split_ifs at hlen
  · have := habs (-x)
    simp only [String.length_append] at hlen
    simp at hlen
    omega
  · have := habs x
    simp at hlen
    omega

/-- The distance after an edit of a coordinate field that leaves the four
coordinates present. -/
theorem handleInputChange_coordinate_distance (day : Fin 7) (s : State) (field : Field)
    (value : String) (hfield : field ∈ coordinateFields)
    (hall : coordinatesPresent (s.formData.set field value) = true) :
    (handleInputChange day s field value).1.formData.distance =
      distanceKmText (parseFloat (JSVal.str (s.formData.set field value).originLat))
        (parseFloat (JSVal.str (s.formData.set field value).originLng))
        (parseFloat (JSVal.str (s.formData.set field value).destinationLat))
        (parseFloat (JSVal.str (s.formData.set field value).destinationLng)) := by
  have hprice := not_mem_priceFields field hfield
  simp only [handleInputChange, hprice, hfield, hall, and_self, if_true, if_false]
  split_ifs <;> rfl

/-! ## Facts about machine arithmetic -/

theorem roundHalfEven_eq (x : ℚ) (n : ℤ) (h1 : (n : ℚ) - 1 / 2 < x) (h2 : x < n + 1 / 2) :
    roundHalfEven x = n := by
  unfold roundHalfEven
  simp only
  by_cases hx : (n : ℚ) ≤ x
  · have hf : ⌊x⌋ = n := by
      rw [Int.floor_eq_iff]
      exact ⟨hx, by linarith⟩
    rw [hf, if_pos (by linarith)]
  · push_neg at hx
    have hf : ⌊x⌋ = n - 1 := by
      rw [Int.floor_eq_iff]
      push_cast
      constructor <;> linarith
    rw [hf]
    push_cast
    rw [if_neg (by linarith), if_pos (by linarith)]
    ring

theorem roundHalfEven_tie (x : ℚ) (n : ℤ) (h : x = n + 1 / 2) (heven : n % 2 = 0) :
    roundHalfEven x = n := by
  have hf : ⌊x⌋ = n := by
    rw [Int.floor_eq_iff]
    constructor <;> linarith
  unfold roundHalfEven
  simp only
  rw [hf, if_neg (by linarith), if_neg (by linarith), if_pos heven]

/-- The double nearest to a positive `q` with `2 ^ e <= q < 2 ^ (e + 1)`. -/
theorem roundDouble_pos (q : ℚ) (e n : ℤ) (hq : 0 < q) (he : -1022 ≤ e)
    (hlo : (2 : ℚ) ^ e ≤ q) (hhi : q < (2 : ℚ) ^ (e + 1))
    (hn : roundHalfEven (q / 2 ^ (e - 52)) = n)
    (hfin : (n : ℚ) * 2 ^ (e - 52) < 2 ^ (1024 : ℤ)) :
    roundDouble q = JSNum.fin (n * 2 ^ (e - 52)) := by
  have hlog : Int.log 2 q = e := by
    apply le_antisymm
    · have := (Int.lt_zpow_iff_log_lt (b := 2) (by norm_num) hq (x := e + 1)).mp
        (by exact_mod_cast hhi)
      omega
    · exact (Int.zpow_le_iff_le_log (b := 2) (by norm_num) hq).mp (by exact_mod_cast hlo)
  unfold roundDouble
  simp only [hq.ne', if_false, abs_of_pos hq, hlog, max_eq_left he, hn, not_le.mpr hfin,
    not_lt.mpr hq.le]

/-- The double nearest to a negative number is the opposite of the double
nearest to its opposite. -/
theorem roundDouble_neg (q : ℚ) (e n : ℤ) (hq : 0 < q) (he : -1022 ≤ e)
    (hlo : (2 : ℚ) ^ e ≤ q) (hhi : q < (2 : ℚ) ^ (e + 1))
    (hn : roundHalfEven (q / 2 ^ (e - 52)) = n)
    (hfin : (n : ℚ) * 2 ^ (e - 52) < 2 ^ (1024 : ℤ)) :
    roundDouble (-q) = JSNum.fin (-(n * 2 ^ (e - 52))) := by
  have hlog : Int.log 2 q = e := by
    apply le_antisymm
    · have := (Int.lt_zpow_iff_log_lt (b := 2) (by norm_num) hq (x := e + 1)).mp
        (by exact_mod_cast hhi)
      omega
    · exact (Int.zpow_le_iff_le_log (b := 2) (by norm_num) hq).mp (by exact_mod_cast hlo)
  have hne : -q ≠ 0 := by linarith
  have hneg : -q < 0 := by linarith
  unfold roundDouble
  simp only [hne, if_false, abs_neg, abs_of_pos hq, hlog, max_eq_left he, hn,
    not_le.mpr hfin, hneg, if_true]

namespace JSNum

theorem mulR_comm (rnd : ℚ → JSNum) (x y : JSNum) : mulR rnd x y = mulR rnd y x := by
  rcases x with _ | _ | _ | a <;> rcases y with _ | _ | _ | b <;>
    simp [mulR, mul, sign, mul_comm]

theorem mulR_exact (x y : JSNum) : mulR fin x y = mul x y := by
  rcases x with _ | _ | _ | a <;> rcases y with _ | _ | _ | b <;> rfl

theorem addR_exact (x y : JSNum) : addR fin x y = add x y := by
  rcases x with _ | _ | _ | a <;> rcases y with _ | _ | _ | b <;> rfl

theorem subR_exact (x y : JSNum) : subR fin x y = sub x y := by
  rcases x with _ | _ | _ | a <;> rcases y with _ | _ | _ | b <;> rfl

end JSNum

theorem nearestInteger_eq_round (x : JSNum) : nearestInteger x = JSNum.round x := by
  rcases x with _ | _ | _ | q
  · rfl
  · rfl
  · rfl
  · simp [nearestInteger, JSNum.round, round_eq]

theorem parseFloatWith_exact (v : JSVal) : parseFloatWith JSNum.fin v = parseFloat v := by
  rcases v with s | n
  · simp only [parseFloatWith, parseFloat]
    rcases parseFloatChars s.toList with _ | _ | _ | q <;> rfl
  · rfl

/-- With the exact reading of the arithmetic, `calculatePriceWith` is
`calculatePrice`. -/
theorem calculatePriceWith_exact (day : Fin 7) (mode : String) (distance : JSVal)
    (companions : ℤ) (purpose : String) :
    calculatePriceWith JSNum.fin day mode distance companions purpose =
      calculatePrice day mode distance companions purpose := by
  simp only [calculatePriceWith, calculatePrice, JSNum.mulR_exact, JSNum.addR_exact,
    JSNum.subR_exact, parseFloatWith_exact]

theorem truthy_of_parseFloatWith (rnd : ℚ → JSNum) (dist : JSVal) (d : ℚ)
    (h : parseFloatWith rnd dist = JSNum.fin d) (hd : d ≠ 0) : dist.truthy = true := by
  cases dist with
  | num n =>
    simp only [parseFloatWith] at h
    subst h
    simp [JSVal.truthy, JSNum.truthy, hd]
  | str s =>
    simp only [JSVal.truthy, decide_eq_true_eq]
    intro hs
    subst hs
    simp [parseFloatWith, parseFloatChars_nil] at h

/-- The pipeline of `calculatePriceWith` past its guard, for any rounding. -/
theorem calculatePriceWith_of_parse (rnd : ℚ → JSNum) (day : Fin 7) (mode : String)
    (dist : JSVal) (d : ℚ) (c : ℤ) (p : String) (hmode : mode ∈ modes)
    (htruthy : dist.truthy = true) (h : parseFloatWith rnd dist = JSNum.fin d) :
    calculatePriceWith rnd day mode dist c p = specPriceWith rnd day mode d c p := by
  have hw := weekend_iff day
  have hp : p = "medical" ∨ p = "work" ∨ p = "education" ∨
      (p ≠ "medical" ∧ p ≠ "work" ∧ p ≠ "education") := by tauto
  have h3 : JSNum.mulR rnd (JSNum.fin d) (JSNum.fin 3) =
      JSNum.mulR rnd (JSNum.fin 3) (JSNum.fin d) := JSNum.mulR_comm rnd _ _
  have hc : JSNum.mulR rnd (JSNum.fin c) (rnd 0.3) =
      JSNum.mulR rnd (rnd 0.3) (JSNum.fin c) := JSNum.mulR_comm rnd _ _
  simp only [modes, List.mem_cons, List.mem_singleton, List.mem_nil_iff, or_false] at hmode
  rcases hp with rfl | rfl | rfl | ⟨h1, h2, h3'⟩ <;>
    rcases hmode with rfl | rfl | rfl | rfl | rfl | rfl <;>
    simp [calculatePriceWith, specPriceWith, specRate, basePrices, toNumber,
      nearestInteger_eq_round, *]

theorem roundDouble_seven_twentieths :
    roundDouble (7 / 20) = JSNum.fin (3152519739159347 / 9007199254740992) := by
  rw [roundDouble_pos (7 / 20) (-2) 6305039478318694 (by norm_num) (by norm_num) (by norm_num)
    (by norm_num) (roundHalfEven_eq _ _ (by norm_num) (by norm_num)) (by norm_num)]
  norm_num

theorem roundDouble_three_tenths :
    roundDouble 0.3 = JSNum.fin (5404319552844595 / 18014398509481984) := by
  rw [roundDouble_pos 0.3 (-2) 5404319552844595 (by norm_num) (by norm_num) (by norm_num)
    (by norm_num) (roundHalfEven_eq _ _ (by norm_num) (by norm_num)) (by norm_num)]
  norm_num

theorem parseFloatWith_double_035 :
    parseFloatWith roundDouble (JSVal.str "0.35") =
      JSNum.fin (3152519739159347 / 9007199254740992) := by
  have hchars : parseFloatChars "0.35".toList = JSNum.fin (7 / 20) := by
    simp [parseFloatChars, takeSign, isStrWhiteSpace, digitsValue, exponentValue]
    norm_num
  simp only [parseFloatWith, hchars]
  exact roundDouble_seven_twentieths

/-- The pipeline in doubles at mode car, distance `0.35` and 5 companions on a
weekday: `12 * 0.35` is `4.199999999999999`, times `2.5` is
`10.499999999999998`, which rounds to 10. -/
theorem specPriceWith_double_car :
    specPriceWith roundDouble 1 "car" (3152519739159347 / 9007199254740992) 5 "" =
      JSNum.fin 10 := by
  have h1 : JSNum.mulR roundDouble (JSNum.fin 12)
      (JSNum.fin (3152519739159347 / 9007199254740992)) =
      JSNum.fin (1182194902184755 / 281474976710656) := by
    simp only [JSNum.mulR]
    rw [roundDouble_pos _ 2 4728779608739020 (by norm_num) (by norm_num) (by norm_num)
      (by norm_num) (roundHalfEven_tie _ _ (by norm_num) (by norm_num)) (by norm_num)]
    norm_num
  have h2 : JSNum.mulR roundDouble (JSNum.fin (5404319552844595 / 18014398509481984))
      (JSNum.fin 5) = JSNum.fin (3 / 2) := by
    simp only [JSNum.mulR]
    rw [roundDouble_pos _ 0 6755399441055744 (by norm_num) (by norm_num) (by norm_num)
      (by norm_num) (roundHalfEven_eq _ _ (by norm_num) (by norm_num)) (by norm_num)]
    norm_num
  have h3 : JSNum.addR roundDouble (JSNum.fin 1) (JSNum.fin (3 / 2)) = JSNum.fin (5 / 2) := by
    simp only [JSNum.addR]
    rw [roundDouble_pos _ 1 5629499534213120 (by norm_num) (by norm_num) (by norm_num)
      (by norm_num) (roundHalfEven_eq _ _ (by norm_num) (by norm_num)) (by norm_num)]
    norm_num
  have h4 : JSNum.mulR roundDouble (JSNum.fin (1182194902184755 / 281474976710656))
      (JSNum.fin (5 / 2)) = JSNum.fin (5910974510923775 / 562949953421312) := by
    simp only [JSNum.mulR]
    rw [roundDouble_pos _ 3 5910974510923775 (by norm_num) (by norm_num) (by norm_num)
      (by norm_num) (roundHalfEven_eq _ _ (by norm_num) (by norm_num)) (by norm_num)]
    norm_num
  simp only [specPriceWith, specRate, Saturday, Sunday]
  simp [h1, h2, h3, h4, roundDouble_three_tenths, nearestInteger, round_eq]
  norm_num

/-- The exact reading of the arithmetic gives 11 at the same input: the two
readings differ where a product falls just below a half. -/
theorem calculatePrice_exact_car :
    calculatePrice 1 "car" (JSVal.str "0.35") 5 "" = JSNum.fin 11 := by
  have hparse : parseFloat (JSVal.str "0.35") = JSNum.fin (7 / 20) := by
    simp [parseFloat, parseFloatChars, takeSign, isStrWhiteSpace, digitsValue, exponentValue]
    norm_num
  rw [calculatePrice_of_parse 1 "car" (JSVal.str "0.35") (7 / 20) 5 "" (by simp [modes])
    (by simp [JSVal.truthy]) hparse]
  simp [specPrice, specRate, Saturday, Sunday, round_eq]
  norm_num

/-! ## The haversine distance in doubles at `(8, 0)` and `(-8, 180)` -/

/-- The haversine term in doubles for the points `(8, 0)` and `(-8, 180)`,
given the doubles that `Math.sin` and `Math.cos` return at the four arguments
the code passes them there: the term is `1 + 2 ^ (-52)`, and `1 - a` is
`-(2 ^ (-52))`. -/
theorem haversineAWith_trace (M : MathLib) (hpi : M.pi = JSNum.fin piDouble)
    (hsinLat : M.sin (JSNum.fin (-(5030569068109113 / 36028797018963968))) =
      JSNum.fin (-(5014239404989977 / 36028797018963968)))
    (hcos1 : M.cos (JSNum.fin (5030569068109113 / 36028797018963968)) =
      JSNum.fin (4459770905381437 / 4503599627370496))
    (hcos2 : M.cos (JSNum.fin (-(5030569068109113 / 36028797018963968))) =
      JSNum.fin (4459770905381437 / 4503599627370496))
    (hsinLng : M.sin (JSNum.fin (884279719003555 / 562949953421312)) = JSNum.fin 1) :
    haversineAWith roundDouble M (JSNum.fin 8) (JSNum.fin 0) (JSNum.fin (-8)) (JSNum.fin 180) =
        JSNum.fin (4503599627370497 / 4503599627370496) ∧
      JSNum.subR roundDouble (JSNum.fin 1) (JSNum.fin (4503599627370497 / 4503599627370496)) =
        JSNum.fin (-(1 / 4503599627370496)) := by
  have hs1 : JSNum.subR roundDouble (JSNum.fin (-8)) (JSNum.fin 8) =
      (JSNum.fin (-16)) := by
    have hx : ((-8) : ℚ) - 8 = -16 := by norm_num [piDouble]
    simp only [JSNum.subR, hx]
    rw [roundDouble_neg _ (4) 4503599627370496 (by norm_num) (by norm_num) (by norm_num)
      (by norm_num) (roundHalfEven_eq _ _ (by norm_num) (by norm_num)) (by norm_num)]
    norm_num
  have hm1 : JSNum.mulR roundDouble (JSNum.fin (-16)) (JSNum.fin piDouble) =
      (JSNum.fin (-(884279719003555 / 17592186044416))) := by
    have hx : ((-16) : ℚ) * piDouble = -(884279719003555 / 17592186044416) := by norm_num [piDouble]
    simp only [JSNum.mulR, hx]
    rw [roundDouble_neg _ (5) 7074237752028440 (by norm_num) (by norm_num) (by norm_num)
      (by norm_num) (roundHalfEven_eq _ _ (by norm_num) (by norm_num)) (by norm_num)]
    norm_num
  have hd1 : JSNum.divR roundDouble (JSNum.fin (-(884279719003555 / 17592186044416))) (JSNum.fin 180) =
      (JSNum.fin (-(5030569068109113 / 18014398509481984))) := by
    have hx : ((-(884279719003555 / 17592186044416)) : ℚ) / 180 = -(176855943800711 / 633318697598976) := by norm_num [piDouble]
    simp only [JSNum.divR]
    rw [if_neg (by norm_num), hx]
    rw [roundDouble_neg _ (-2) 5030569068109113 (by norm_num) (by norm_num) (by norm_num)
      (by norm_num) (roundHalfEven_eq _ _ (by norm_num) (by norm_num)) (by norm_num)]
    norm_num
  have hh1 : JSNum.divR roundDouble (JSNum.fin (-(5030569068109113 / 18014398509481984))) (JSNum.fin 2) =
      (JSNum.fin (-(5030569068109113 / 36028797018963968))) := by
    have hx : ((-(5030569068109113 / 18014398509481984)) : ℚ) / 2 = -(5030569068109113 / 36028797018963968) := by norm_num [piDouble]
    simp only [JSNum.divR]
    rw [if_neg (by norm_num), hx]
    rw [roundDouble_neg _ (-3) 5030569068109113 (by norm_num) (by norm_num) (by norm_num)
      (by norm_num) (roundHalfEven_eq _ _ (by norm_num) (by norm_num)) (by norm_num)]
    norm_num
  have hs2 : JSNum.subR roundDouble (JSNum.fin 180) (JSNum.fin 0) =
      (JSNum.fin 180) := by
    have hx : (180 : ℚ) - 0 = 180 := by norm_num [piDouble]
    simp only [JSNum.subR, hx]
    rw [roundDouble_pos _ (7) 6333186975989760 (by norm_num) (by norm_num) (by norm_num)
      (by norm_num) (roundHalfEven_eq _ _ (by norm_num) (by norm_num)) (by norm_num)]
    norm_num
  have hm2 : JSNum.mulR roundDouble (JSNum.fin 180) (JSNum.fin piDouble) =
      (JSNum.fin (4974073419394997 / 8796093022208)) := by
    have hx : (180 : ℚ) * piDouble = (39792587355159975 / 70368744177664) := by norm_num [piDouble]
    simp only [JSNum.mulR, hx]
    rw [roundDouble_pos _ (9) 4974073419394997 (by norm_num) (by norm_num) (by norm_num)
      (by norm_num) (roundHalfEven_eq _ _ (by norm_num) (by norm_num)) (by norm_num)]
    norm_num
  have hd2 : JSNum.divR roundDouble (JSNum.fin (4974073419394997 / 8796093022208)) (JSNum.fin 180) =
      (JSNum.fin (884279719003555 / 281474976710656)) := by
    have hx : ((4974073419394997 / 8796093022208) : ℚ) / 180 = (4974073419394997 / 1583296743997440) := by norm_num [piDouble]
    simp only [JSNum.divR]
    rw [if_neg (by norm_num), hx]
    rw [roundDouble_pos _ (1) 7074237752028440 (by norm_num) (by norm_num) (by norm_num)
      (by norm_num) (roundHalfEven_eq _ _ (by norm_num) (by norm_num)) (by norm_num)]
    norm_num
  have hh2 : JSNum.divR roundDouble (JSNum.fin (884279719003555 / 281474976710656)) (JSNum.fin 2) =
      (JSNum.fin (884279719003555 / 562949953421312)) := by
    have hx : ((884279719003555 / 281474976710656) : ℚ) / 2 = (884279719003555 / 562949953421312) := by norm_num [piDouble]
    simp only [JSNum.divR]
    rw [if_neg (by norm_num), hx]
    rw [roundDouble_pos _ (0) 7074237752028440 (by norm_num) (by norm_num) (by norm_num)
      (by norm_num) (roundHalfEven_eq _ _ (by norm_num) (by norm_num)) (by norm_num)]
    norm_num
  have hm3 : JSNum.mulR roundDouble (JSNum.fin 8) (JSNum.fin piDouble) =
      (JSNum.fin (884279719003555 / 35184372088832)) := by
    have hx : (8 : ℚ) * piDouble = (884279719003555 / 35184372088832) := by norm_num [piDouble]
    simp only [JSNum.mulR, hx]
    rw [roundDouble_pos _ (4) 7074237752028440 (by norm_num) (by norm_num) (by norm_num)
      (by norm_num) (roundHalfEven_eq _ _ (by norm_num) (by norm_num)) (by norm_num)]
    norm_num
  have hd3 : JSNum.divR roundDouble (JSNum.fin (884279719003555 / 35184372088832)) (JSNum.fin 180) =
      (JSNum.fin (5030569068109113 / 36028797018963968)) := by
    have hx : ((884279719003555 / 35184372088832) : ℚ) / 180 = (176855943800711 / 1266637395197952) := by norm_num [piDouble]
    simp only [JSNum.divR]
    rw [if_neg (by norm_num), hx]
    rw [roundDouble_pos _ (-3) 5030569068109113 (by norm_num) (by norm_num) (by norm_num)
      (by norm_num) (roundHalfEven_eq _ _ (by norm_num) (by norm_num)) (by norm_num)]
    norm_num
  have hm4 : JSNum.mulR roundDouble (JSNum.fin (-8)) (JSNum.fin piDouble) =
      (JSNum.fin (-(884279719003555 / 35184372088832))) := by
    have hx : ((-8) : ℚ) * piDouble = -(884279719003555 / 35184372088832) := by norm_num [piDouble]
    simp only [JSNum.mulR, hx]
    rw [roundDouble_neg _ (4) 7074237752028440 (by norm_num) (by norm_num) (by norm_num)
      (by norm_num) (roundHalfEven_eq _ _ (by norm_num) (by norm_num)) (by norm_num)]
    norm_num
  have hd4 : JSNum.divR roundDouble (JSNum.fin (-(884279719003555 / 35184372088832))) (JSNum.fin 180) =
      (JSNum.fin (-(5030569068109113 / 36028797018963968))) := by
    have hx : ((-(884279719003555 / 35184372088832)) : ℚ) / 180 = -(176855943800711 / 1266637395197952) := by norm_num [piDouble]
    simp only [JSNum.divR]
    rw [if_neg (by norm_num), hx]
    rw [roundDouble_neg _ (-3) 5030569068109113 (by norm_num) (by norm_num) (by norm_num)
      (by norm_num) (roundHalfEven_eq _ _ (by norm_num) (by norm_num)) (by norm_num)]
    norm_num
  have hA : JSNum.mulR roundDouble (JSNum.fin (-(5014239404989977 / 36028797018963968))) (JSNum.fin (-(5014239404989977 / 36028797018963968))) =
      (JSNum.fin (1395694493897217 / 72057594037927936)) := by
    have hx : ((-(5014239404989977 / 36028797018963968)) : ℚ) * (-(5014239404989977 / 36028797018963968)) = (25142596810554238581887470460529 / 1298074214633706907132624082305024) := by norm_num [piDouble]
    simp only [JSNum.mulR, hx]
    rw [roundDouble_pos _ (-6) 5582777975588868 (by norm_num) (by norm_num) (by norm_num)
      (by norm_num) (roundHalfEven_eq _ _ (by norm_num) (by norm_num)) (by norm_num)]
    norm_num
  have hB : JSNum.mulR roundDouble (JSNum.fin (4459770905381437 / 4503599627370496)) (JSNum.fin (4459770905381437 / 4503599627370496)) =
      (JSNum.fin (8832737443003841 / 9007199254740992)) := by
    have hx : ((4459770905381437 / 4503599627370496) : ℚ) * (4459770905381437 / 4503599627370496) = (19889556528486762294526464184969 / 20282409603651670423947251286016) := by norm_num [piDouble]
    simp only [JSNum.mulR, hx]
    rw [roundDouble_pos _ (-1) 8832737443003841 (by norm_num) (by norm_num) (by norm_num)
      (by norm_num) (roundHalfEven_eq _ _ (by norm_num) (by norm_num)) (by norm_num)]
    norm_num
  have hC : JSNum.mulR roundDouble (JSNum.fin (8832737443003841 / 9007199254740992)) (JSNum.fin 1) =
      (JSNum.fin (8832737443003841 / 9007199254740992)) := by
    have hx : ((8832737443003841 / 9007199254740992) : ℚ) * 1 = (8832737443003841 / 9007199254740992) := by norm_num [piDouble]
    simp only [JSNum.mulR, hx]
    rw [roundDouble_pos _ (-1) 8832737443003841 (by norm_num) (by norm_num) (by norm_num)
      (by norm_num) (roundHalfEven_eq _ _ (by norm_num) (by norm_num)) (by norm_num)]
    norm_num
  have hadd : JSNum.addR roundDouble (JSNum.fin (1395694493897217 / 72057594037927936)) (JSNum.fin (8832737443003841 / 9007199254740992)) =
      (JSNum.fin (4503599627370497 / 4503599627370496)) := by
    have hx : ((1395694493897217 / 72057594037927936) : ℚ) + (8832737443003841 / 9007199254740992) = (72057594037927945 / 72057594037927936) := by norm_num [piDouble]
    simp only [JSNum.addR, hx]
    rw [roundDouble_pos _ (0) 4503599627370497 (by norm_num) (by norm_num) (by norm_num)
      (by norm_num) (roundHalfEven_eq _ _ (by norm_num) (by norm_num)) (by norm_num)]
    norm_num
  have hsub : JSNum.subR roundDouble (JSNum.fin 1) (JSNum.fin (4503599627370497 / 4503599627370496)) =
      (JSNum.fin (-(1 / 4503599627370496))) := by
    have hx : (1 : ℚ) - (4503599627370497 / 4503599627370496) = -(1 / 4503599627370496) := by norm_num [piDouble]
    simp only [JSNum.subR, hx]
    rw [roundDouble_neg _ (-52) 4503599627370496 (by norm_num) (by norm_num) (by norm_num)
      (by norm_num) (roundHalfEven_eq _ _ (by norm_num) (by norm_num)) (by norm_num)]
    norm_num
  refine ⟨?_, hsub⟩
  simp only [haversineAWith, hpi, hs1, hm1, hd1, hh1, hs2, hm2, hd2, hh2, hm3, hd3, hm4, hd4,
    hsinLat, hcos1, hcos2, hsinLng, hA, hB, hC, hadd]

/-! ## The claims -/

/-- C1: for each of the six modes and every distance that parses to a non-zero
number `d`, `calculatePrice` (the day of the week an argument) equals the
specification's pipeline taken in its order: base price, companion factor,
purpose factor, eco discount, weekend surge, nearest integer.  Both sides are
computed in the same machine arithmetic, whatever its rounding `rnd` is, the
IEEE doubles of the code included. -/
theorem calculatePriceWith_eq_specPriceWith (rnd : ℚ → JSNum) (day : Fin 7) (mode : String)
    (dist : JSVal) (d : ℚ) (c : ℤ) (p : String) (hmode : mode ∈ modes)
    (h : parseFloatWith rnd dist = JSNum.fin d) (hd : d ≠ 0) :
    calculatePriceWith rnd day mode dist c p = specPriceWith rnd day mode d c p :=
  calculatePriceWith_of_parse rnd day mode dist d c p hmode
    (truthy_of_parseFloatWith rnd dist d h hd) h

theorem calculatePriceWith_eq_specPriceWith_witness :
    "car" ∈ modes ∧
      parseFloatWith roundDouble (JSVal.str "0.35") =
        JSNum.fin (3152519739159347 / 9007199254740992) ∧
      (3152519739159347 / 9007199254740992 : ℚ) ≠ 0 ∧
      calculatePriceWith roundDouble 1 "car" (JSVal.str "0.35") 5 "" =
        specPriceWith roundDouble 1 "car" (3152519739159347 / 9007199254740992) 5 "" ∧
      calculatePriceWith roundDouble 1 "car" (JSVal.str "0.35") 5 "" = JSNum.fin 10 :=
  have hm : "car" ∈ modes := by simp [modes]
  have hd : (3152519739159347 / 9007199254740992 : ℚ) ≠ 0 := by norm_num
  have heq := calculatePriceWith_eq_specPriceWith roundDouble 1 "car" (JSVal.str "0.35")
    (3152519739159347 / 9007199254740992) 5 "" hm parseFloatWith_double_035 hd
  ⟨hm, parseFloatWith_double_035, hd, heq, heq.trans specPriceWith_double_car⟩

/-- C2 (counterexample): a car trip over the distance `-10` is priced `-120`,
which is below zero. -/
theorem calculatePrice_negative_distance :
    calculatePrice 1 "car" (JSVal.num (JSNum.fin (-10))) 0 "other" = JSNum.fin (-120) ∧
      ¬ (calculatePrice 1 "car" (JSVal.num (JSNum.fin (-10))) 0 "other").nonneg := by
  have h : calculatePrice 1 "car" (JSVal.num (JSNum.fin (-10))) 0 "other" = JSNum.fin (-120) := by
    simp [calculatePrice, basePrices, toNumber, parseFloat, JSVal.truthy, JSNum.truthy]
    norm_num
  refine ⟨h, ?_⟩
  rw [h]
  simp [JSNum.nonneg]

/-- C2 (amended): for a mode that is absent or one of the six, and a distance
that is absent or parses to a non-negative number, the value returned by
`calculatePrice` is greater than or equal to 0, for every companions count,
purpose and day of the week. -/
theorem calculatePrice_nonneg (day : Fin 7) (mode : String) (dist : JSVal) (c : ℤ)
    (p : String) (hmode : mode = "" ∨ mode ∈ modes)
    (hdist : dist.truthy = false ∨ ∃ d : ℚ, parseFloat dist = JSNum.fin d ∧ 0 ≤ d) :
    (calculatePrice day mode dist c p).nonneg := by
  have hzero : (JSNum.fin 0).nonneg := le_refl (0 : ℚ)
  by_cases ht : dist.truthy = true
  · rcases hmode with rfl | hmode
    · simpa [calculatePrice] using hzero
    · rcases hdist with hf | ⟨d, hd, hpos⟩
      · rw [hf] at ht
        cases ht
      · rw [calculatePrice_of_parse day mode dist d c p hmode ht hd]
        have := specPrice_nonneg day mode d c p hpos
        show (0 : ℚ) ≤ ((specPrice day mode d c p : ℤ) : ℚ)
        exact_mod_cast this
  · have hf : dist.truthy = false := by simpa using ht
    simpa [calculatePrice, hf] using hzero

theorem calculatePrice_nonneg_witness :
    ("bus" = "" ∨ "bus" ∈ modes) ∧
      ((JSVal.num (JSNum.fin 7)).truthy = false ∨
        ∃ d : ℚ, parseFloat (JSVal.num (JSNum.fin 7)) = JSNum.fin d ∧ 0 ≤ d) ∧
      (calculatePrice Saturday "bus" (JSVal.num (JSNum.fin 7)) (-2) "medical").nonneg :=
  have hm : "bus" = "" ∨ "bus" ∈ modes := Or.inr (by simp [modes])
  have hd : (JSVal.num (JSNum.fin 7)).truthy = false ∨
      ∃ d : ℚ, parseFloat (JSVal.num (JSNum.fin 7)) = JSNum.fin d ∧ 0 ≤ d :=
    Or.inr ⟨7, rfl, by norm_num⟩
  ⟨hm, hd, calculatePrice_nonneg Saturday "bus" (JSVal.num (JSNum.fin 7)) (-2) "medical" hm hd⟩

/-- C3 (counterexample): with mode car and the distance `"abc"`, which is not
empty and does not parse, `calculatePrice` returns `NaN` and not 0. -/
theorem calculatePrice_unparseable :
    calculatePrice 1 "car" (JSVal.str "abc") 0 "" = JSNum.nan ∧
      calculatePrice 1 "car" (JSVal.str "abc") 0 "" ≠ JSNum.fin 0 := by
  have h : calculatePrice 1 "car" (JSVal.str "abc") 0 "" = JSNum.nan := by
    apply calculatePrice_of_nan
    · decide
    · simp [JSVal.truthy]
    · simp [parseFloat, parseFloatChars, takeSign, isStrWhiteSpace]
  refine ⟨h, ?_⟩
  rw [h]
  simp

/-- C3 (amended): `calculatePrice` returns 0 whenever the mode is absent
(empty) or the distance is absent (empty, or the number 0 or `NaN`); when the
mode is present and the distance is a non-empty value that does not parse as a
number it returns `NaN`; both for every companions count, purpose and day. -/
theorem calculatePrice_absent (day : Fin 7) (mode : String) (dist : JSVal) (c : ℤ)
    (p : String) :
    ((mode = "" ∨ dist.truthy = false) → calculatePrice day mode dist c p = JSNum.fin 0) ∧
      (mode ≠ "" → dist.truthy = true → parseFloat dist = JSNum.nan →
        calculatePrice day mode dist c p = JSNum.nan) := by
  refine ⟨fun h => ?_, fun hm ht hn => calculatePrice_of_nan day mode dist c p hm ht hn⟩
  simp [calculatePrice, h]

theorem calculatePrice_absent_witness :
    calculatePrice 3 "" (JSVal.str "42") 1 "work" = JSNum.fin 0 ∧
      calculatePrice 3 "train" (JSVal.str "") 1 "work" = JSNum.fin 0 ∧
      calculatePrice 3 "train" (JSVal.str "far") 1 "work" = JSNum.nan :=
  ⟨(calculatePrice_absent 3 "" (JSVal.str "42") 1 "work").1 (Or.inl rfl),
    (calculatePrice_absent 3 "train" (JSVal.str "") 1 "work").1
      (Or.inr (by simp [JSVal.truthy])),
    (calculatePrice_absent 3 "train" (JSVal.str "far") 1 "work").2 (by decide)
      (by simp [JSVal.truthy])
      (by simp [parseFloat, parseFloatChars, takeSign, isStrWhiteSpace])⟩

/-- C4: for mode walking `calculatePrice` returns 0 on every numeric distance,
every companions count, every purpose and every day of the week; the
witness is the specification's case `calculatePrice('walking', 10, 0, 'other')`. -/
theorem calculatePrice_walking (day : Fin 7) (dist : JSVal) (d : ℚ) (c : ℤ) (p : String)
    (h : parseFloat dist = JSNum.fin d) :
    calculatePrice day "walking" dist c p = JSNum.fin 0 := by
  by_cases ht : dist.truthy = true
  · rw [calculatePrice_of_parse day "walking" dist d c p (by simp [modes]) ht h]
    have hp : p = "medical" ∨ p = "work" ∨ p = "education" ∨
        (p ≠ "medical" ∧ p ≠ "work" ∧ p ≠ "education") := by tauto
    rcases hp with rfl | rfl | rfl | ⟨h1, h2, h3⟩ <;>
      simp [specPrice, specRate, *]
  · have hf : dist.truthy = false := by simpa using ht
    simp [calculatePrice, hf]

theorem calculatePrice_walking_witness :
    parseFloat (JSVal.num (JSNum.fin 10)) = JSNum.fin 10 ∧
      calculatePrice 4 "walking" (JSVal.num (JSNum.fin 10)) 0 "other" = JSNum.fin 0 :=
  ⟨rfl, calculatePrice_walking 4 (JSVal.num (JSNum.fin 10)) 10 0 "other" rfl⟩

/-- C5: on every day that is not Saturday or Sunday,
`calculatePrice('car', 10, 2, 'work')` returns 230. -/
theorem calculatePrice_car_weekday (day : Fin 7) (hsat : day ≠ Saturday)
    (hsun : day ≠ Sunday) :
    calculatePrice day "car" (JSVal.num (JSNum.fin 10)) 2 "work" = JSNum.fin 230 := by
  rw [calculatePrice_of_parse day "car" (JSVal.num (JSNum.fin 10)) 10 2 "work" (by simp [modes])
    (by simp [JSVal.truthy, JSNum.truthy]) rfl]
  simp [specPrice, specRate, hsat, hsun, round_eq]
  norm_num

theorem calculatePrice_car_weekday_witness :
    (3 : Fin 7) ≠ Saturday ∧ (3 : Fin 7) ≠ Sunday ∧
      calculatePrice 3 "car" (JSVal.num (JSNum.fin 10)) 2 "work" = JSNum.fin 230 :=
  have hsat : (3 : Fin 7) ≠ Saturday := by decide
  have hsun : (3 : Fin 7) ≠ Sunday := by decide
  ⟨hsat, hsun, calculatePrice_car_weekday 3 hsat hsun⟩

/-- C6 (counterexample): on a Saturday `calculatePrice('car', 10, 2, 'work')`
returns 300, not 299: the surge multiplies 230.4 before the rounding. -/
theorem calculatePrice_car_saturday :
    calculatePrice Saturday "car" (JSVal.num (JSNum.fin 10)) 2 "work" = JSNum.fin 300 ∧
      calculatePrice Saturday "car" (JSVal.num (JSNum.fin 10)) 2 "work" ≠ JSNum.fin 299 := by
  have h : calculatePrice Saturday "car" (JSVal.num (JSNum.fin 10)) 2 "work" =
      JSNum.fin 300 := by
    rw [calculatePrice_of_parse Saturday "car" (JSVal.num (JSNum.fin 10)) 10 2 "work" (by simp [modes])
      (by simp [JSVal.truthy, JSNum.truthy]) rfl]
    simp [specPrice, specRate, round_eq]
    norm_num
  refine ⟨h, ?_⟩
  rw [h]
  simp

/-- C6 (amended): on a Saturday or a Sunday
`calculatePrice('car', 10, 2, 'work')` returns 300 (120, times 1.6 is 192,
times 1.2 is 230.4, times 1.3 is 299.52, rounded). -/
theorem calculatePrice_car_weekend (day : Fin 7) (hday : day = Saturday ∨ day = Sunday) :
    calculatePrice day "car" (JSVal.num (JSNum.fin 10)) 2 "work" = JSNum.fin 300 := by
  rw [calculatePrice_of_parse day "car" (JSVal.num (JSNum.fin 10)) 10 2 "work" (by simp [modes])
    (by simp [JSVal.truthy, JSNum.truthy]) rfl]
  simp [specPrice, specRate, hday, round_eq]
  norm_num

theorem calculatePrice_car_weekend_witness :
    (Sunday = Saturday ∨ Sunday = Sunday) ∧
      calculatePrice Sunday "car" (JSVal.num (JSNum.fin 10)) 2 "work" = JSNum.fin 300 :=
  ⟨Or.inr rfl, calculatePrice_car_weekend Sunday (Or.inr rfl)⟩

/-- C7: on every day of the week `calculatePrice('flight', 100, 1, 'medical')`
returns 9360. -/
theorem calculatePrice_flight_medical (day : Fin 7) :
    calculatePrice day "flight" (JSVal.num (JSNum.fin 100)) 1 "medical" = JSNum.fin 9360 := by
  rw [calculatePrice_of_parse day "flight" (JSVal.num (JSNum.fin 100)) 100 1 "medical" (by simp [modes])
    (by simp [JSVal.truthy, JSNum.truthy]) rfl]
  simp [specPrice, specRate, round_eq]
  norm_num

/-- C8: `calculateDistance` is symmetric in its two points, for all real
coordinates. -/
theorem calculateDistance_symm (lat1 lng1 lat2 lng2 : ℝ) :
    calculateDistance lat1 lng1 lat2 lng2 = calculateDistance lat2 lng2 lat1 lng1 := by
  simp only [calculateDistance, haversineA_symm lat1 lng1 lat2 lng2]

/-- C9: the distance from a point to itself is 0, for every coordinate. -/
theorem calculateDistance_self (lat lng : ℝ) : calculateDistance lat lng lat lng = 0 := by
  simp [calculateDistance, haversineA_self, atan2_zero_one]

/-- C10 (the code at the failing input): in doubles, for the points `(8, 0)`
and `(-8, 180)` and the doubles that `Math.sin` and `Math.cos` return there,
the haversine term is above 1, `Math.sqrt(1 - a)` is `NaN` and
`calculateDistance` returns `NaN`, which is not greater than or equal to 0. -/
theorem calculateDistanceWith_nan (M : MathLib) (hpi : M.pi = JSNum.fin piDouble)
    (hsinLat : M.sin (JSNum.fin (-(5030569068109113 / 36028797018963968))) =
      JSNum.fin (-(5014239404989977 / 36028797018963968)))
    (hcos1 : M.cos (JSNum.fin (5030569068109113 / 36028797018963968)) =
      JSNum.fin (4459770905381437 / 4503599627370496))
    (hcos2 : M.cos (JSNum.fin (-(5030569068109113 / 36028797018963968))) =
      JSNum.fin (4459770905381437 / 4503599627370496))
    (hsinLng : M.sin (JSNum.fin (884279719003555 / 562949953421312)) = JSNum.fin 1)
    (hsqrt : ∀ q : ℚ, q < 0 → M.sqrt (JSNum.fin q) = JSNum.nan)
    (hatan : ∀ y : JSNum, M.atan2 y JSNum.nan = JSNum.nan) :
    calculateDistanceWith roundDouble M (JSNum.fin 8) (JSNum.fin 0) (JSNum.fin (-8))
        (JSNum.fin 180) = JSNum.nan ∧
      ¬ (calculateDistanceWith roundDouble M (JSNum.fin 8) (JSNum.fin 0) (JSNum.fin (-8))
        (JSNum.fin 180)).nonneg := by
  have h := haversineAWith_trace M hpi hsinLat hcos1 hcos2 hsinLng
  have hval : calculateDistanceWith roundDouble M (JSNum.fin 8) (JSNum.fin 0) (JSNum.fin (-8))
      (JSNum.fin 180) = JSNum.nan := by
    simp only [calculateDistanceWith, h.1, h.2]
    rw [hsqrt (-(1 / 4503599627370496)) (by norm_num), hatan]
    rfl
  refine ⟨hval, ?_⟩
  rw [hval]
  exact fun hn => hn

theorem calculateDistanceWith_nan_witness :
    calculateDistanceWith roundDouble traceMath (JSNum.fin 8) (JSNum.fin 0) (JSNum.fin (-8))
        (JSNum.fin 180) = JSNum.nan ∧
      ¬ (calculateDistanceWith roundDouble traceMath (JSNum.fin 8) (JSNum.fin 0)
        (JSNum.fin (-8)) (JSNum.fin 180)).nonneg :=
  calculateDistanceWith_nan traceMath rfl (by norm_num [traceMath]) (by norm_num [traceMath])
    (by norm_num [traceMath]) (by norm_num [traceMath])
    (by
      intro q hq
      have hne : q ≠ 4503599627370497 / 4503599627370496 := by
        intro h
        rw [h] at hq
        norm_num at hq
      simp [traceMath, hne])
    (fun _ => rfl)

/-- C11: at a stage from 1 to 4 with one of its required fields empty,
`nextStep` leaves `currentStep` and the draft as they were (it only shakes the
form and shows the message). -/
theorem nextStep_blocked (s : State) (field : Field) (h1 : 1 ≤ s.currentStep)
    (h4 : s.currentStep ≤ 4) (hreq : field ∈ (requiredFields s.currentStep).getD [])
    (hempty : (s.formData.get field).truthy = false) :
    nextStep s = some (s, [Effect.shake, Effect.showMessage Message.fillRequired]) := by
  have hN : s.currentStep = 1 ∨ s.currentStep = 2 ∨ s.currentStep = 3 ∨ s.currentStep = 4 := by
    omega
  obtain ⟨fields, hf⟩ : ∃ fields, requiredFields s.currentStep = some fields := by
    rcases hN with h | h | h | h <;> simp [requiredFields, h]
  rw [hf, Option.getD_some] at hreq
  have hall : fields.all (fun f => (s.formData.get f).truthy) = false := by
    rw [List.all_eq_false]
    exact ⟨field, hreq, by simp [hempty]⟩
  have hv : validateStep s.formData s.currentStep = some false := by
    simp only [validateStep, hf, hall]
  simp only [nextStep, hv]

theorem nextStep_blocked_witness :
    (1 : ℤ) ≤ 2 ∧ (2 : ℤ) ≤ 4 ∧ Field.startTime ∈ (requiredFields 2).getD [] ∧
      nextStep ⟨2, { FormData.empty with originLat := "28.6", originLng := "77.2" }, false⟩ =
        some (⟨2, { FormData.empty with originLat := "28.6", originLng := "77.2" }, false⟩,
          [Effect.shake, Effect.showMessage Message.fillRequired]) :=
  have hreq : Field.startTime ∈ (requiredFields 2).getD [] := by simp [requiredFields]
  ⟨by norm_num, by norm_num, hreq,
    nextStep_blocked ⟨2, { FormData.empty with originLat := "28.6", originLng := "77.2" }, false⟩
      Field.startTime (by norm_num) (by norm_num) hreq
      (by simp [FormData.get, FormData.empty, JSVal.truthy])⟩

/-- C12: at a stage `N` with `1 < N <= 4`, whatever the draft holds, `prevStep`
sets `currentStep` to `N - 1` and leaves every draft field unchanged. -/
theorem prevStep_retreats (s : State) (h1 : 1 < s.currentStep) (h4 : s.currentStep ≤ 4) :
    (prevStep s).currentStep = s.currentStep - 1 ∧ (prevStep s).formData = s.formData ∧
      1 ≤ (prevStep s).currentStep ∧ (prevStep s).currentStep ≤ 3 := by
  refine ⟨rfl, rfl, ?_, ?_⟩ <;> simp only [prevStep] <;> omega

theorem prevStep_retreats_witness :
    (prevStep ⟨3, FormData.empty, false⟩).currentStep = 3 - 1 ∧
      (prevStep ⟨3, FormData.empty, false⟩).formData = FormData.empty ∧
      1 ≤ (prevStep ⟨3, FormData.empty, false⟩).currentStep ∧
      (prevStep ⟨3, FormData.empty, false⟩).currentStep ≤ 3 :=
  prevStep_retreats ⟨3, FormData.empty, false⟩ (by norm_num) (by norm_num)

/-- C13 (counterexample): `prevStep` called in the initial state, where
`currentStep` is 1, leaves `currentStep` at 0. -/
theorem prevStep_at_step_one :
    State.initial.currentStep = 1 ∧ (prevStep State.initial).currentStep = 0 ∧
      (prevStep State.initial).currentStep ≠ 1 := by
  refine ⟨rfl, rfl, ?_⟩
  simp [prevStep, State.initial]

/-- C13 (amended): `prevStep` has no guard: `n` calls from `currentStep` 1 end
at `1 - n` with the draft unchanged; at step 1 the form does not offer
`prevStep`. -/
theorem prevStep_iterate (fd : FormData) (loading : Bool) (n : ℕ) :
    (prevStep^[n] ⟨1, fd, loading⟩).currentStep = 1 - (n : ℤ) ∧
      (prevStep^[n] ⟨1, fd, loading⟩).formData = fd ∧
      ¬ Offered ⟨1, fd, loading⟩ Action.prev := by
  have key : ∀ (k : ℕ) (c : ℤ), prevStep^[k] ⟨c, fd, loading⟩ = ⟨c - k, fd, loading⟩ := by
    intro k
    induction k with
    | zero => intro c; simp
    | succ k ih =>
      intro c
      rw [Function.iterate_succ_apply]
      have : prevStep ⟨c, fd, loading⟩ = ⟨c - 1, fd, loading⟩ := rfl
      rw [this, ih]
      simp only [Nat.cast_succ, State.mk.injEq, and_true]
      ring
  rw [key]
  refine ⟨rfl, rfl, ?_⟩
  simp [Offered]

/-- C14: in every state reachable from the initial state through the events
the form offers, `currentStep` is between 1 and 4. -/
theorem reachable_currentStep (s : State) (h : Reachable s) :
    1 ≤ s.currentStep ∧ s.currentStep ≤ 4 := by
  induction h with
  | init => simp [State.initial]
  | after s a _ hoff ih =>
    cases a with
    | edit day field value =>
      simp only [step, handleInputChange_currentStep]
      exact ih
    | next =>
      simp only [Offered] at hoff
      simp only [step]
      rcases nextStep_currentStep s with h | h <;> rw [h] <;> omega
    | prev =>
      simp only [Offered] at hoff
      simp only [step, prevStep]
      omega
    | origin lat lng placeName time => exact ih
    | destination lat lng placeName time => exact ih
    | submit r nowStart nowEnd resp =>
      simp only [step]
      rcases handleSubmit_currentStep s r nowStart nowEnd resp with h | h <;> rw [h] <;> omega

theorem reachable_currentStep_witness :
    Reachable (step (step State.initial (Action.edit 1 Field.tripNumber "7")) Action.next) ∧
      1 ≤ (step (step State.initial (Action.edit 1 Field.tripNumber "7"))
        Action.next).currentStep ∧
      (step (step State.initial (Action.edit 1 Field.tripNumber "7"))
        Action.next).currentStep ≤ 4 :=
  have hr : Reachable
      (step (step State.initial (Action.edit 1 Field.tripNumber "7")) Action.next) :=
    Reachable.after _ _ (Reachable.after _ _ Reachable.init trivial)
      (Or.inl (handleInputChange_currentStep 1 State.initial Field.tripNumber "7"))
  ⟨hr, reachable_currentStep _ hr⟩

/-- C15 (counterexample): in the initial state, at step 1 with every field
empty, `handleSubmit` hands a record to the persistence collaborator. -/
theorem handleSubmit_posts_at_step_one :
    State.initial.currentStep ≠ 4 ∧
      validateStep State.initial.formData 4 = some false ∧
      Effect.post (buildPayload FormData.empty (1 / 2) "t1" "t2") ∈
        (handleSubmit State.initial (1 / 2) "t1" "t2" (Response.http true Body.empty)).2 := by
  refine ⟨by simp [State.initial], ?_, ?_⟩
  · simp [validateStep, requiredFields, State.initial, FormData.empty, FormData.get,
      JSVal.truthy]
  · simp [handleSubmit, State.initial]

/-- C15 (amended): `handleSubmit` checks neither the step nor the required
fields: in every state it hands exactly one record, the payload built from the
draft with its defaults, to the persistence collaborator; unless the
collaborator accepts it, the draft and the step are left unchanged. -/
theorem handleSubmit_always_posts (s : State) (r : ℚ) (nowStart nowEnd : String)
    (resp : Response) :
    (handleSubmit s r nowStart nowEnd resp).2.filter Effect.isPost =
        [Effect.post (buildPayload s.formData r nowStart nowEnd)] ∧
      (((handleSubmit s r nowStart nowEnd resp).1.formData = s.formData ∧
          (handleSubmit s r nowStart nowEnd resp).1.currentStep = s.currentStep) ∨
        ∃ body, body ≠ Body.invalid ∧ resp = Response.http true body) := by
  refine ⟨handleSubmit_posts s r nowStart nowEnd resp, ?_⟩
  rcases resp with _ | ⟨ok, body⟩
  · exact Or.inl ⟨rfl, rfl⟩
  · cases ok <;> rcases body with _ | _ | _ | ⟨_ | error⟩ <;> simp [handleSubmit]

/-- C16: for the draft in which every field is empty, the payload built by
`handleSubmit` (the random draw `r` in `[0, 1)` and the two clock readings
made arguments) holds `floor(1000 * r)`, an integer from 0 to 999, as trip
number, the place name `Unknown Location` twice, the clock readings as start
and end time, mode `car`, purpose `other`, frequency `rarely`, distance 1,
cost 0, and also coordinates 0 and companions 0; this payload is what
`handleSubmit` posts. -/
theorem buildPayload_empty (r : ℚ) (nowStart nowEnd : String) (h0 : 0 ≤ r) (h1 : r < 1) :
    buildPayload FormData.empty r nowStart nowEnd =
        { trip_number := JSNum.fin (⌊r * 1000⌋ : ℤ), origin_lat := JSNum.fin 0,
          origin_lng := JSNum.fin 0, origin_place := "Unknown Location",
          start_time := nowStart, destination_lat := JSNum.fin 0,
          destination_lng := JSNum.fin 0, destination_place := "Unknown Location",
          end_time := nowEnd, mode := "car", distance := JSNum.fin 1, purpose := "other",
          companions := JSNum.fin 0, frequency := "rarely", cost := JSNum.fin 0 } ∧
      0 ≤ ⌊r * 1000⌋ ∧ ⌊r * 1000⌋ < 1000 ∧
      ∀ (step : ℤ) (loading : Bool) (resp : Response),
        (handleSubmit ⟨step, FormData.empty, loading⟩ r nowStart nowEnd resp).2.filter
            Effect.isPost =
          [Effect.post (buildPayload FormData.empty r nowStart nowEnd)] := by
  refine ⟨?_, ?_, ?_, ?_⟩
  · simp [buildPayload, FormData.empty, parseInt_empty, parseFloat_empty, orElse_nan,
      strOr_empty]
  · exact Int.floor_nonneg.mpr (by positivity)
  · rw [Int.floor_lt]
    push_cast
    linarith
  · intro step loading resp
    exact handleSubmit_posts _ r nowStart nowEnd resp

theorem buildPayload_empty_witness :
    (0 : ℚ) ≤ 1 / 4 ∧ (1 / 4 : ℚ) < 1 ∧
      (buildPayload FormData.empty (1 / 4) "2024-01-01T10:00:00.000Z"
        "2024-01-01T10:00:00.001Z").trip_number = JSNum.fin 250 :=
  have h0 : (0 : ℚ) ≤ 1 / 4 := by norm_num
  have h1 : (1 / 4 : ℚ) < 1 := by norm_num
  ⟨h0, h1, by
    rw [(buildPayload_empty (1 / 4) "2024-01-01T10:00:00.000Z" "2024-01-01T10:00:00.001Z"
      h0 h1).1]
    norm_num⟩

/-- C17 (counterexample): a draft with every field filled whose distance is the
numeric string `0` gets the default distance 1 in the payload, not 0. -/
theorem buildPayload_zero_distance :
    parseFloat (JSVal.str "0") = JSNum.fin 0 ∧
      (buildPayload
        ⟨"12", "28.6", "77.2", "Home", "2024-01-01T09:00", "28.7", "77.3", "Office",
          "2024-01-01T10:00", "car", "0", "work", "0", "daily", JSVal.str "0"⟩
        (1 / 2) "t1" "t2").distance = JSNum.fin 1 ∧
      (buildPayload
        ⟨"12", "28.6", "77.2", "Home", "2024-01-01T09:00", "28.7", "77.3", "Office",
          "2024-01-01T10:00", "car", "0", "work", "0", "daily", JSVal.str "0"⟩
        (1 / 2) "t1" "t2").distance ≠ parseFloat (JSVal.str "0") := by
  have h : parseFloat (JSVal.str "0") = JSNum.fin 0 := by
    simp [parseFloat, parseFloatChars, takeSign, isStrWhiteSpace, digitsValue, exponentValue]
  refine ⟨h, ?_, ?_⟩
  · simp [buildPayload, h, JSNum.orElse, JSNum.truthy]
  · simp [buildPayload, h, JSNum.orElse, JSNum.truthy]

/-- C17 (amended): for every draft whose tripNumber and distance are numeric
strings with a non-zero value, whose cost and companions are numeric (the
value 0 included) and whose mode, purpose, frequency, place names and
timestamps are non-empty, each of these payload fields equals the value of the
draft, parsed as a number for the numeric ones; a coordinate that is a numeric
string is passed on as its value too. -/
theorem buildPayload_filled (fd : FormData) (r : ℚ) (nowStart nowEnd : String) (n k : ℤ)
    (d c : ℚ) (htrip : parseInt (JSVal.str fd.tripNumber) = JSNum.fin n) (hn : n ≠ 0)
    (hdist : parseFloat (JSVal.str fd.distance) = JSNum.fin d) (hd : d ≠ 0)
    (hcost : parseFloat fd.cost = JSNum.fin c)
    (hcomp : parseInt (JSVal.str fd.companions) = JSNum.fin k)
    (hmode : fd.mode ≠ "") (hpurpose : fd.purpose ≠ "") (hfreq : fd.frequency ≠ "")
    (horigin : fd.originPlace ≠ "") (hdest : fd.destinationPlace ≠ "")
    (hstart : fd.startTime ≠ "") (hend : fd.endTime ≠ "") :
    (buildPayload fd r nowStart nowEnd).trip_number = JSNum.fin n ∧
      (buildPayload fd r nowStart nowEnd).distance = JSNum.fin d ∧
      (buildPayload fd r nowStart nowEnd).cost = JSNum.fin c ∧
      (buildPayload fd r nowStart nowEnd).companions = JSNum.fin k ∧
      (buildPayload fd r nowStart nowEnd).mode = fd.mode ∧
      (buildPayload fd r nowStart nowEnd).purpose = fd.purpose ∧
      (buildPayload fd r nowStart nowEnd).frequency = fd.frequency ∧
      (buildPayload fd r nowStart nowEnd).origin_place = fd.originPlace ∧
      (buildPayload fd r nowStart nowEnd).destination_place = fd.destinationPlace ∧
      (buildPayload fd r nowStart nowEnd).start_time = fd.startTime ∧
      (buildPayload fd r nowStart nowEnd).end_time = fd.endTime ∧
      (∀ a : ℚ, parseFloat (JSVal.str fd.originLat) = JSNum.fin a →
        (buildPayload fd r nowStart nowEnd).origin_lat = JSNum.fin a) ∧
      (∀ a : ℚ, parseFloat (JSVal.str fd.originLng) = JSNum.fin a →
        (buildPayload fd r nowStart nowEnd).origin_lng = JSNum.fin a) ∧
      (∀ a : ℚ, parseFloat (JSVal.str fd.destinationLat) = JSNum.fin a →
        (buildPayload fd r nowStart nowEnd).destination_lat = JSNum.fin a) ∧
      (∀ a : ℚ, parseFloat (JSVal.str fd.destinationLng) = JSNum.fin a →
        (buildPayload fd r nowStart nowEnd).destination_lng = JSNum.fin a) := by
  have hn' : (n : ℚ) ≠ 0 := by exact_mod_cast hn
  refine ⟨?_, ?_, ?_, ?_, ?_, ?_, ?_, ?_, ?_, ?_, ?_, ?_, ?_, ?_, ?_⟩
  · simp only [buildPayload, htrip]
    exact orElse_fin_of_ne _ _ hn'
  · simp only [buildPayload, hdist]
    exact orElse_fin_of_ne _ _ hd
  · simp only [buildPayload, hcost, orElse_fin_zero]
  · simp only [buildPayload, hcomp, orElse_fin_zero]
  · exact strOr_of_ne _ _ hmode
  · exact strOr_of_ne _ _ hpurpose
  · exact strOr_of_ne _ _ hfreq
  · exact strOr_of_ne _ _ horigin
  · exact strOr_of_ne _ _ hdest
  · exact strOr_of_ne _ _ hstart
  · exact strOr_of_ne _ _ hend
  · intro a ha
    simp only [buildPayload, ha, orElse_fin_zero]
  · intro a ha
    simp only [buildPayload, ha, orElse_fin_zero]
  · intro a ha
    simp only [buildPayload, ha, orElse_fin_zero]
  · intro a ha
    simp only [buildPayload, ha, orElse_fin_zero]

theorem buildPayload_filled_witness :
    (buildPayload
      ⟨"12", "28.6", "77.2", "Home", "2024-01-01T09:00", "28.7", "77.3", "Office",
        "2024-01-01T10:00", "car", "7.5", "work", "0", "daily", JSVal.num (JSNum.fin 108)⟩
      (1 / 2) "t1" "t2").trip_number = JSNum.fin 12 ∧
    (buildPayload
      ⟨"12", "28.6", "77.2", "Home", "2024-01-01T09:00", "28.7", "77.3", "Office",
        "2024-01-01T10:00", "car", "7.5", "work", "0", "daily", JSVal.num (JSNum.fin 108)⟩
      (1 / 2) "t1" "t2").distance = JSNum.fin (15 / 2) :=
  have h := buildPayload_filled
    ⟨"12", "28.6", "77.2", "Home", "2024-01-01T09:00", "28.7", "77.3", "Office",
      "2024-01-01T10:00", "car", "7.5", "work", "0", "daily", JSVal.num (JSNum.fin 108)⟩
    (1 / 2) "t1" "t2" 12 0 (15 / 2) 108
    (by simp [parseInt, parseIntChars, takeSign, isStrWhiteSpace, parseIntMagnitude, digitsValue])
    (by norm_num)
    (by
      simp [parseFloat, parseFloatChars, takeSign, isStrWhiteSpace, digitsValue, exponentValue]
      norm_num)
    (by norm_num) rfl
    (by simp [parseInt, parseIntChars, takeSign, isStrWhiteSpace, parseIntMagnitude, digitsValue])
    (by decide) (by decide) (by decide) (by decide) (by decide) (by decide) (by decide)
  ⟨by exact_mod_cast h.1, h.2.1⟩

/-- C18: when the persistence collaborator reports success (an ok response
whose body is empty or valid JSON), every field of the draft is the empty
string and `currentStep` is 1 after `handleSubmit`; in particular so at stage 4
with all required fields present. -/
theorem handleSubmit_success (s : State) (r : ℚ) (nowStart nowEnd : String) (body : Body)
    (hbody : body ≠ Body.invalid) :
    (handleSubmit s r nowStart nowEnd (Response.http true body)).1.formData = FormData.empty ∧
      (handleSubmit s r nowStart nowEnd (Response.http true body)).1.currentStep = 1 := by
  rcases body with _ | _ | _ | ⟨_ | error⟩ <;> first | exact absurd rfl hbody | exact ⟨rfl, rfl⟩

theorem handleSubmit_success_witness :
    Body.json none ≠ Body.invalid ∧
      validateStep
        (⟨"12", "28.6", "77.2", "Home", "2024-01-01T09:00", "28.7", "77.3", "Office",
          "2024-01-01T10:00", "car", "7.5", "work", "1", "daily", JSVal.num (JSNum.fin 140)⟩ :
          FormData) 4 = some true ∧
      (handleSubmit
        ⟨4, ⟨"12", "28.6", "77.2", "Home", "2024-01-01T09:00", "28.7", "77.3", "Office",
          "2024-01-01T10:00", "car", "7.5", "work", "1", "daily", JSVal.num (JSNum.fin 140)⟩,
          false⟩
        (1 / 2) "t1" "t2" (Response.http true (Body.json none))).1.formData = FormData.empty ∧
      (handleSubmit
        ⟨4, ⟨"12", "28.6", "77.2", "Home", "2024-01-01T09:00", "28.7", "77.3", "Office",
          "2024-01-01T10:00", "car", "7.5", "work", "1", "daily", JSVal.num (JSNum.fin 140)⟩,
          false⟩
        (1 / 2) "t1" "t2" (Response.http true (Body.json none))).1.currentStep = 1 :=
  have hb : Body.json none ≠ Body.invalid := by decide
  ⟨hb, by simp [validateStep, requiredFields, FormData.get, JSVal.truthy, JSNum.truthy],
    handleSubmit_success _ (1 / 2) "t1" "t2" (Body.json none) hb⟩

/-- C19: when the persistence collaborator reports an error (a network
failure, a body that is not valid JSON, or a response that is not ok), every
draft field and `currentStep` are after `handleSubmit` what they were before. -/
theorem handleSubmit_failure (s : State) (r : ℚ) (nowStart nowEnd : String) (resp : Response)
    (herr : resp = Response.networkFailure ∨ (∃ ok, resp = Response.http ok Body.invalid) ∨
      ∃ body, resp = Response.http false body) :
    (handleSubmit s r nowStart nowEnd resp).1.formData = s.formData ∧
      (handleSubmit s r nowStart nowEnd resp).1.currentStep = s.currentStep := by
  rcases herr with rfl | ⟨ok, rfl⟩ | ⟨body, rfl⟩
  · exact ⟨rfl, rfl⟩
  · cases ok <;> exact ⟨rfl, rfl⟩
  · rcases body with _ | _ | _ | ⟨_ | error⟩ <;> exact ⟨rfl, rfl⟩

theorem handleSubmit_failure_witness :
    (handleSubmit ⟨4, { FormData.empty with mode := "bus" }, false⟩ (1 / 2) "t1" "t2"
        (Response.http false (Body.json (some "SQLITE_ERROR")))).1.formData =
        { FormData.empty with mode := "bus" } ∧
      (handleSubmit ⟨4, { FormData.empty with mode := "bus" }, false⟩ (1 / 2) "t1" "t2"
        (Response.http false (Body.json (some "SQLITE_ERROR")))).1.currentStep = 4 :=
  handleSubmit_failure ⟨4, { FormData.empty with mode := "bus" }, false⟩ (1 / 2) "t1" "t2"
    (Response.http false (Body.json (some "SQLITE_ERROR")))
    (Or.inr (Or.inr ⟨_, rfl⟩))

/-- C20: for `handleInputChange(field, value)` on one of the four coordinate
fields: if all four coordinate fields are non-empty after the change, the
distance of the draft becomes `calculateDistance` of the four parsed values
written with two decimals; if one of them is empty, the distance is left
unchanged. -/
theorem handleInputChange_distance (day : Fin 7) (s : State) (field : Field) (value : String)
    (hfield : field ∈ coordinateFields) :
    (coordinatesPresent (s.formData.set field value) = true →
        (handleInputChange day s field value).1.formData.distance =
            distanceKmText (parseFloat (JSVal.str (s.formData.set field value).originLat))
              (parseFloat (JSVal.str (s.formData.set field value).originLng))
              (parseFloat (JSVal.str (s.formData.set field value).destinationLat))
              (parseFloat (JSVal.str (s.formData.set field value).destinationLng)) ∧
          ∀ lat1 lng1 lat2 lng2 : ℚ,
            parseFloat (JSVal.str (s.formData.set field value).originLat) = JSNum.fin lat1 →
            parseFloat (JSVal.str (s.formData.set field value).originLng) = JSNum.fin lng1 →
            parseFloat (JSVal.str (s.formData.set field value).destinationLat) =
              JSNum.fin lat2 →
            parseFloat (JSVal.str (s.formData.set field value).destinationLng) =
              JSNum.fin lng2 →
            (handleInputChange day s field value).1.formData.distance =
              toFixed2 (calculateDistance lat1 lng1 lat2 lng2)) ∧
      (coordinatesPresent (s.formData.set field value) = false →
        (handleInputChange day s field value).1.formData.distance = s.formData.distance) := by
  have hprice : field ∉ priceFields := by
    simp only [coordinateFields, List.mem_cons, List.mem_singleton, List.mem_nil_iff,
      or_false] at hfield
    rcases hfield with rfl | rfl | rfl | rfl <;> simp [priceFields]
  have hkeep : (s.formData.set field value).distance = s.formData.distance := by
    simp only [coordinateFields, List.mem_cons, List.mem_singleton, List.mem_nil_iff,
      or_false] at hfield
    rcases hfield with rfl | rfl | rfl | rfl <;> rfl
  have htext : coordinatesPresent (s.formData.set field value) = true →
      (handleInputChange day s field value).1.formData.distance =
        distanceKmText (parseFloat (JSVal.str (s.formData.set field value).originLat))
          (parseFloat (JSVal.str (s.formData.set field value).originLng))
          (parseFloat (JSVal.str (s.formData.set field value).destinationLat))
          (parseFloat (JSVal.str (s.formData.set field value).destinationLng)) := by
    intro hall
    simp only [handleInputChange, hprice, hfield, hall, and_self, if_true, if_false]
    split_ifs <;> rfl
  refine ⟨fun hall => ⟨htext hall, ?_⟩, fun hnone => ?_⟩
  · intro lat1 lng1 lat2 lng2 h1 h2 h3 h4
    rw [htext hall, h1, h2, h3, h4]
    rfl
  · simp only [handleInputChange, hprice, hfield, hnone, if_false]
    simp [hkeep]

theorem handleInputChange_distance_witness :
    Field.destinationLng ∈ coordinateFields ∧
      (handleInputChange 2
        ⟨3, { FormData.empty with originLat := "28.5", originLng := "77.25",
                                  destinationLat := "28.5" }, false⟩
        Field.destinationLng "77.25").1.formData.distance =
        toFixed2 (calculateDistance ((57 / 2 : ℚ) : ℝ) ((309 / 4 : ℚ) : ℝ) ((57 / 2 : ℚ) : ℝ)
          ((309 / 4 : ℚ) : ℝ)) ∧
      (handleInputChange 2 ⟨2, FormData.empty, false⟩
        Field.originLat "28.5").1.formData.distance = "" :=
  have hf : Field.destinationLng ∈ coordinateFields := by simp [coordinateFields]
  have hp1 : parseFloat (JSVal.str "28.5") = JSNum.fin (57 / 2) := by
    simp [parseFloat, parseFloatChars, takeSign, isStrWhiteSpace, digitsValue, exponentValue]
    norm_num
  have hp2 : parseFloat (JSVal.str "77.25") = JSNum.fin (309 / 4) := by
    simp [parseFloat, parseFloatChars, takeSign, isStrWhiteSpace, digitsValue, exponentValue]
    norm_num
  ⟨hf,
    ((handleInputChange_distance 2
      ⟨3, { FormData.empty with originLat := "28.5", originLng := "77.25",
                                destinationLat := "28.5" }, false⟩
      Field.destinationLng "77.25" hf).1
        (by simp [coordinatesPresent, FormData.set, FormData.empty])).2
      (57 / 2) (309 / 4) (57 / 2) (309 / 4) hp1 hp2 hp1 hp2,
    (handleInputChange_distance 2 ⟨2, FormData.empty, false⟩ Field.originLat "28.5"
      (by simp [coordinateFields])).2
        (by simp [coordinatesPresent, FormData.set, FormData.empty])⟩

/-- C21 (counterexample): with mode walking and the cost `50` typed by hand,
an edit that completes the four coordinates leaves the cost at `50`: the
computed price is not above 0 and is not written. -/
theorem handleInputChange_walking_keeps_cost :
    (handleInputChange 2
      ⟨3, { FormData.empty with originLat := "28.5", originLng := "77.25",
                                destinationLat := "28.6", mode := "walking",
                                cost := JSVal.str "50" }, false⟩
      Field.destinationLng "77.3").1.formData.cost = JSVal.str "50" ∧
    (handleInputChange 2
      ⟨3, { FormData.empty with originLat := "28.5", originLng := "77.25",
                                destinationLat := "28.6", mode := "walking",
                                cost := JSVal.str "50" }, false⟩
      Field.destinationLng "77.3").1.formData.cost ≠
      JSVal.num (calculatePrice 2 "walking"
        (JSVal.str (handleInputChange 2
          ⟨3, { FormData.empty with originLat := "28.5", originLng := "77.25",
                                    destinationLat := "28.6", mode := "walking",
                                    cost := JSVal.str "50" }, false⟩
          Field.destinationLng "77.3").1.formData.distance) 0 "") := by
  have h := handleInputChange_coordinate_cost 2
    ⟨3, { FormData.empty with originLat := "28.5", originLng := "77.25",
                              destinationLat := "28.6", mode := "walking",
                              cost := JSVal.str "50" }, false⟩
    Field.destinationLng "77.3" (by simp [coordinateFields])
    (by simp [coordinatesPresent, FormData.set, FormData.empty]) (by decide)
  rw [calculatePrice_walking_not_gt0] at h
  simp only [Bool.false_eq_true, if_false] at h
  refine ⟨h, ?_⟩
  rw [h]
  simp

/-- C21 (amended): for `handleInputChange` on a coordinate field that leaves
all four coordinates present while the mode of the draft is set: when
`calculatePrice(mode, recomputed distance, companions, purpose)` is above 0 the
cost of the draft becomes that price, whatever it held before; when the price
is not above 0 the cost is left unchanged. -/
theorem handleInputChange_recomputes_cost (day : Fin 7) (s : State) (field : Field)
    (value : String) (hfield : field ∈ coordinateFields)
    (hall : coordinatesPresent (s.formData.set field value) = true)
    (hmode : s.formData.mode ≠ "") :
    ((calculatePrice day s.formData.mode
          (JSVal.str (handleInputChange day s field value).1.formData.distance)
          (parseIntOrZero s.formData.companions) s.formData.purpose).gt0 = true →
        (handleInputChange day s field value).1.formData.cost =
          JSVal.num (calculatePrice day s.formData.mode
            (JSVal.str (handleInputChange day s field value).1.formData.distance)
            (parseIntOrZero s.formData.companions) s.formData.purpose)) ∧
      ((calculatePrice day s.formData.mode
          (JSVal.str (handleInputChange day s field value).1.formData.distance)
          (parseIntOrZero s.formData.companions) s.formData.purpose).gt0 = false →
        (handleInputChange day s field value).1.formData.cost = s.formData.cost) := by
  have h := handleInputChange_coordinate_cost day s field value hfield hall hmode
  constructor
  · intro hpos
    rw [h, if_pos hpos]
  · intro hneg
    rw [h, if_neg (by simp [hneg])]

theorem handleInputChange_recomputes_cost_witness :
    (handleInputChange 2
      ⟨3, { FormData.empty with originLat := "28.5", originLng := "77.25",
                                destinationLat := "28.6", mode := "walking",
                                cost := JSVal.str "50" }, false⟩
      Field.destinationLng "77.3").1.formData.cost = JSVal.str "50" :=
  (handleInputChange_recomputes_cost 2
    ⟨3, { FormData.empty with originLat := "28.5", originLng := "77.25",
                              destinationLat := "28.6", mode := "walking",
                              cost := JSVal.str "50" }, false⟩
    Field.destinationLng "77.3" (by simp [coordinateFields])
    (by simp [coordinatesPresent, FormData.set, FormData.empty]) (by decide)).2
    (calculatePrice_walking_not_gt0 _ _ _ _)

/-- C22: for `handleInputChange(field, value)` on `mode`, `distance`,
`companions` or `purpose`, with `e` the price of the updated draft: if `e` is
above 0 the cost becomes `e`, otherwise the cost is unchanged; in both cases
the edited field holds the new value and every other field is unchanged. -/
theorem handleInputChange_price_fields (day : Fin 7) (s : State) (field : Field)
    (value : String) (hfield : field ∈ priceFields) :
    ((calculatePrice day (s.formData.set field value).mode
          (JSVal.str (s.formData.set field value).distance)
          (parseIntOrZero (s.formData.set field value).companions)
          (s.formData.set field value).purpose).gt0 = true →
        (handleInputChange day s field value).1.formData.cost =
          JSVal.num (calculatePrice day (s.formData.set field value).mode
            (JSVal.str (s.formData.set field value).distance)
            (parseIntOrZero (s.formData.set field value).companions)
            (s.formData.set field value).purpose)) ∧
      ((calculatePrice day (s.formData.set field value).mode
          (JSVal.str (s.formData.set field value).distance)
          (parseIntOrZero (s.formData.set field value).companions)
          (s.formData.set field value).purpose).gt0 = false →
        (handleInputChange day s field value).1.formData.cost = s.formData.cost) ∧
      (handleInputChange day s field value).1.formData.get field = JSVal.str value ∧
      ∀ other : Field, other ≠ field → other ≠ Field.cost →
        (handleInputChange day s field value).1.formData.get other = s.formData.get other := by
  have h := handleInputChange_price day s field value hfield
  have hcost : field ≠ Field.cost := by
    intro hc
    rw [hc] at hfield
    simp [priceFields] at hfield
  have hkeep : (s.formData.set field value).cost = s.formData.cost := by
    have := FormData.get_set s.formData field Field.cost value
    simpa [FormData.get, Ne.symm hcost] using this
  refine ⟨fun hpos => ?_, fun hneg => ?_, ?_, fun other ho hc => ?_⟩
  · rw [h, if_pos hpos]
  · rw [h, if_neg (by simp [hneg]), hkeep]
  · rw [h]
    have hset := FormData.get_set s.formData field field value
    split_ifs
    · cases field <;> simp_all [FormData.get, FormData.set]
    · simpa using hset
  · rw [h]
    have hset := FormData.get_set s.formData field other value
    rw [if_neg ho] at hset
    split_ifs
    · rw [← hset]
      cases other <;> first | exact absurd rfl hc | rfl
    · exact hset

theorem handleInputChange_price_fields_witness :
    Field.mode ∈ priceFields ∧
      (handleInputChange 2 ⟨4, { FormData.empty with distance := "10" }, false⟩
        Field.mode "car").1.formData.cost = JSVal.num (JSNum.fin 120) :=
  have hf : Field.mode ∈ priceFields := by simp [priceFields]
  have hp : calculatePrice 2 "car" (JSVal.str "10") 0 "" = JSNum.fin 120 := by
    rw [calculatePrice_of_parse 2 "car" (JSVal.str "10") 10 0 "" (by simp [modes])
      (by simp [JSVal.truthy])
      (by
        simp [parseFloat, parseFloatChars, takeSign, isStrWhiteSpace, digitsValue,
          exponentValue])]
    simp [specPrice, specRate, Saturday, Sunday, round_eq]
    norm_num
  ⟨hf, by
    have h := (handleInputChange_price_fields 2
      ⟨4, { FormData.empty with distance := "10" }, false⟩ Field.mode "car" hf).1
    simp only [FormData.set, FormData.empty, parseIntOrZero] at h
    have hc : (parseIntChars "".toList).getD 0 = 0 := by
      simp [parseIntChars, takeSign, parseIntMagnitude]
    rw [hc, hp] at h
    exact h (by simp [JSNum.gt0])⟩

/-- C23: for every draft and every value `v`, `handleInputChange('cost', v)`
sets the cost of the draft to `v`, computes no price and no distance, has no
effect besides, and leaves every other field of the draft unchanged. -/
theorem handleInputChange_cost (day : Fin 7) (s : State) (v : String) :
    handleInputChange day s Field.cost v =
      ({ s with formData := { s.formData with cost := JSVal.str v } }, []) := by
  simp [handleInputChange, coordinateFields, priceFields, FormData.set]

/-- C25: at a stage `N` from 1 to 3 with every required field of the stage
non-empty, `nextStep` sets `currentStep` to `N + 1` and leaves every draft
field unchanged. -/
theorem nextStep_advances (s : State) (h1 : 1 ≤ s.currentStep) (h3 : s.currentStep ≤ 3)
    (hfilled : ∀ field ∈ (requiredFields s.currentStep).getD [],
      (s.formData.get field).truthy = true) :
    nextStep s = some ({ s with currentStep := s.currentStep + 1 }, []) := by
  have hN : s.currentStep = 1 ∨ s.currentStep = 2 ∨ s.currentStep = 3 := by omega
  obtain ⟨fields, hf⟩ : ∃ fields, requiredFields s.currentStep = some fields := by
    rcases hN with h | h | h <;> simp [requiredFields, h]
  rw [hf, Option.getD_some] at hfilled
  have hall : fields.all (fun f => (s.formData.get f).truthy) = true := by
    rw [List.all_eq_true]
    exact hfilled
  have hv : validateStep s.formData s.currentStep = some true := by
    simp only [validateStep, hf, hall]
  simp only [nextStep, hv]

theorem nextStep_advances_witness :
    nextStep ⟨1, { FormData.empty with tripNumber := "7" }, false⟩ =
      some (⟨2, { FormData.empty with tripNumber := "7" }, false⟩, []) :=
  nextStep_advances ⟨1, { FormData.empty with tripNumber := "7" }, false⟩ (by norm_num)
    (by norm_num) (by simp [requiredFields, FormData.get, FormData.empty, JSVal.truthy])

/-- C24: the handler of `POST /api/trips` validates nothing: for every body,
each column of the inserted row holds the value of the body when that value is
present and truthy and the default otherwise (a random integer from 0 to 999
as trip number, coordinates 0, place names `Unknown Location`, the clock
readings as timestamps, mode `car`, distance 1, purpose `other`, companions 0,
frequency `rarely`, cost 0); the body of `test-save.js` is stored with its four
values and the defaults elsewhere. -/
theorem insertedRow_defaults (body : RequestBody) (r : ℚ) (nowStart nowEnd : String)
    (h0 : 0 ≤ r) (h1 : r < 1) :
    (∀ col v, body col = some v → v.truthy = true →
        insertedRow body r nowStart nowEnd col = v) ∧
      (∀ col, (body col = none ∨ ∃ v, body col = some v ∧ v.truthy = false) →
        insertedRow body r nowStart nowEnd col = serverDefault r nowStart nowEnd col) ∧
      (serverDefault r nowStart nowEnd Column.trip_number = JsonVal.num (⌊r * 1000⌋ : ℤ) ∧
        0 ≤ ⌊r * 1000⌋ ∧ ⌊r * 1000⌋ < 1000) ∧
      (insertedRow testTrip r nowStart nowEnd Column.trip_number = JsonVal.num 999 ∧
        insertedRow testTrip r nowStart nowEnd Column.origin_lat = JsonVal.num 0 ∧
        insertedRow testTrip r nowStart nowEnd Column.origin_lng = JsonVal.num 0 ∧
        insertedRow testTrip r nowStart nowEnd Column.origin_place =
          JsonVal.str "Unknown Location" ∧
        insertedRow testTrip r nowStart nowEnd Column.start_time = JsonVal.str nowStart ∧
        insertedRow testTrip r nowStart nowEnd Column.destination_lat = JsonVal.num 0 ∧
        insertedRow testTrip r nowStart nowEnd Column.destination_lng = JsonVal.num 0 ∧
        insertedRow testTrip r nowStart nowEnd Column.destination_place =
          JsonVal.str "Unknown Location" ∧
        insertedRow testTrip r nowStart nowEnd Column.end_time = JsonVal.str nowEnd ∧
        insertedRow testTrip r nowStart nowEnd Column.mode = JsonVal.str "test" ∧
        insertedRow testTrip r nowStart nowEnd Column.distance = JsonVal.num 5 ∧
        insertedRow testTrip r nowStart nowEnd Column.purpose = JsonVal.str "test" ∧
        insertedRow testTrip r nowStart nowEnd Column.companions = JsonVal.num 0 ∧
        insertedRow testTrip r nowStart nowEnd Column.frequency = JsonVal.str "rarely" ∧
        insertedRow testTrip r nowStart nowEnd Column.cost = JsonVal.num 0) := by
  refine ⟨?_, ?_, ⟨rfl, ?_, ?_⟩, ?_⟩
  · intro col v hv ht
    simp [insertedRow, JsonVal.orDefault, hv, ht]
  · rintro col (hnone | ⟨v, hv, ht⟩)
    · simp [insertedRow, JsonVal.orDefault, hnone]
    · simp [insertedRow, JsonVal.orDefault, hv, ht]
  · exact Int.floor_nonneg.mpr (by positivity)
  · rw [Int.floor_lt]
    push_cast
    linarith
  · simp [insertedRow, JsonVal.orDefault, testTrip, serverDefault, JsonVal.truthy]

theorem insertedRow_defaults_witness :
    (0 : ℚ) ≤ 3 / 8 ∧ (3 / 8 : ℚ) < 1 ∧
      insertedRow testTrip (3 / 8) "2024-01-01T10:00:00.000Z" "2024-01-01T10:00:00.000Z"
        Column.mode = JsonVal.str "test" ∧
      insertedRow testTrip (3 / 8) "2024-01-01T10:00:00.000Z" "2024-01-01T10:00:00.000Z"
        Column.cost = JsonVal.num 0 :=
  have h0 : (0 : ℚ) ≤ 3 / 8 := by norm_num
  have h1 : (3 / 8 : ℚ) < 1 := by norm_num
  have h := (insertedRow_defaults testTrip (3 / 8) "2024-01-01T10:00:00.000Z"
    "2024-01-01T10:00:00.000Z" h0 h1).2.2.2
  ⟨h0, h1, h.2.2.2.2.2.2.2.2.2.1, h.2.2.2.2.2.2.2.2.2.2.2.2.2.2⟩

/-- C26 (the code at the failing input): in doubles, for the points `(8, 0)`
and `(-8, 180)` and the doubles that `Math.sin` and `Math.cos` return there,
the haversine term `a` is `1 + 2 ^ (-52)`, above 1, so `1 - a` is negative and
`Math.sqrt(1 - a)` is `NaN`. -/
theorem haversineAWith_exceeds_one (M : MathLib) (hpi : M.pi = JSNum.fin piDouble)
    (hsinLat : M.sin (JSNum.fin (-(5030569068109113 / 36028797018963968))) =
      JSNum.fin (-(5014239404989977 / 36028797018963968)))
    (hcos1 : M.cos (JSNum.fin (5030569068109113 / 36028797018963968)) =
      JSNum.fin (4459770905381437 / 4503599627370496))
    (hcos2 : M.cos (JSNum.fin (-(5030569068109113 / 36028797018963968))) =
      JSNum.fin (4459770905381437 / 4503599627370496))
    (hsinLng : M.sin (JSNum.fin (884279719003555 / 562949953421312)) = JSNum.fin 1)
    (hsqrt : ∀ q : ℚ, q < 0 → M.sqrt (JSNum.fin q) = JSNum.nan) :
    haversineAWith roundDouble M (JSNum.fin 8) (JSNum.fin 0) (JSNum.fin (-8)) (JSNum.fin 180) =
        JSNum.fin (1 + 1 / 2 ^ 52) ∧
      ¬ JSNum.le (haversineAWith roundDouble M (JSNum.fin 8) (JSNum.fin 0) (JSNum.fin (-8))
        (JSNum.fin 180)) (JSNum.fin 1) ∧
      JSNum.subR roundDouble (JSNum.fin 1)
          (haversineAWith roundDouble M (JSNum.fin 8) (JSNum.fin 0) (JSNum.fin (-8))
            (JSNum.fin 180)) = JSNum.fin (-(1 / 2 ^ 52)) ∧
      M.sqrt (JSNum.subR roundDouble (JSNum.fin 1)
          (haversineAWith roundDouble M (JSNum.fin 8) (JSNum.fin 0) (JSNum.fin (-8))
            (JSNum.fin 180))) = JSNum.nan := by
  have h := haversineAWith_trace M hpi hsinLat hcos1 hcos2 hsinLng
  refine ⟨?_, ?_, ?_, ?_⟩
  · rw [h.1]
    norm_num
  · rw [h.1]
    show ¬ ((4503599627370497 / 4503599627370496 : ℚ) ≤ 1)
    norm_num
  · rw [h.1, h.2]
    norm_num
  · rw [h.1, h.2]
    exact hsqrt _ (by norm_num)

theorem haversineAWith_exceeds_one_witness :
    haversineAWith roundDouble traceMath (JSNum.fin 8) (JSNum.fin 0) (JSNum.fin (-8))
        (JSNum.fin 180) = JSNum.fin (1 + 1 / 2 ^ 52) ∧
      traceMath.sqrt (JSNum.subR roundDouble (JSNum.fin 1)
          (haversineAWith roundDouble traceMath (JSNum.fin 8) (JSNum.fin 0) (JSNum.fin (-8))
            (JSNum.fin 180))) = JSNum.nan :=
  have h := haversineAWith_exceeds_one traceMath rfl (by norm_num [traceMath]) (by norm_num [traceMath])
    (by norm_num [traceMath]) (by norm_num [traceMath])
    (by
      intro q hq
      have hne : q ≠ 4503599627370497 / 4503599627370496 := by
        intro h
        rw [h] at hq
        norm_num at hq
      simp [traceMath, hne])
  ⟨h.1, h.2.2.2⟩

/-- C27: for a fixed mode (absent or one of the six), companions count, purpose
and day of the week, `calculatePrice` is monotone non-decreasing over the
distances that parse to a non-zero number. -/
theorem calculatePrice_mono (day : Fin 7) (mode : String) (dist1 dist2 : JSVal) (d1 d2 : ℚ)
    (c : ℤ) (p : String) (hmode : mode = "" ∨ mode ∈ modes)
    (h1 : parseFloat dist1 = JSNum.fin d1) (h2 : parseFloat dist2 = JSNum.fin d2)
    (hd1 : d1 ≠ 0) (hd2 : d2 ≠ 0) (hle : d1 ≤ d2) :
    JSNum.le (calculatePrice day mode dist1 c p) (calculatePrice day mode dist2 c p) := by
  rcases hmode with rfl | hmode
  · have hz : ∀ dist, calculatePrice day "" dist c p = JSNum.fin 0 := by
      intro dist
      simp [calculatePrice]
    rw [hz, hz]
    exact le_refl (0 : ℚ)
  · rw [calculatePrice_of_parse day mode dist1 d1 c p hmode (truthy_of_parseFloat dist1 d1 h1 hd1)
        h1,
      calculatePrice_of_parse day mode dist2 d2 c p hmode (truthy_of_parseFloat dist2 d2 h2 hd2)
        h2]
    have := specPrice_mono day mode d1 d2 c p hle
    show ((specPrice day mode d1 c p : ℤ) : ℚ) ≤ ((specPrice day mode d2 c p : ℤ) : ℚ)
    exact_mod_cast this

theorem calculatePrice_mono_witness :
    JSNum.le (calculatePrice Sunday "bus" (JSVal.num (JSNum.fin (-3))) 1 "work")
      (calculatePrice Sunday "bus" (JSVal.num (JSNum.fin (5 / 2))) 1 "work") :=
  calculatePrice_mono Sunday "bus" (JSVal.num (JSNum.fin (-3))) (JSVal.num (JSNum.fin (5 / 2)))
    (-3) (5 / 2) 1 "work" (Or.inr (by simp [modes])) rfl rfl (by norm_num) (by norm_num)
    (by norm_num)

/-- C28: for mode walking, cycling, train or flight `calculatePrice` returns
the same value on any two days of the week, for every distance, companions
count and purpose; two days can give different values only for car or bus, and
for each of these a weekday and a Saturday do differ. -/
theorem calculatePrice_clock (day1 day2 : Fin 7) (mode : String) (dist : JSVal) (c : ℤ)
    (p : String) :
    (mode ∈ ["walking", "cycling", "train", "flight"] →
        calculatePrice day1 mode dist c p = calculatePrice day2 mode dist c p) ∧
      (calculatePrice day1 mode dist c p ≠ calculatePrice day2 mode dist c p →
        mode = "car" ∨ mode = "bus") ∧
      calculatePrice 1 "car" (JSVal.num (JSNum.fin 10)) 0 "" ≠
        calculatePrice Saturday "car" (JSVal.num (JSNum.fin 10)) 0 "" ∧
      calculatePrice 1 "bus" (JSVal.num (JSNum.fin 10)) 0 "" ≠
        calculatePrice Saturday "bus" (JSVal.num (JSNum.fin 10)) 0 "" := by
  refine ⟨?_, ?_, ?_, ?_⟩
  · intro hmode
    simp only [List.mem_cons, List.mem_singleton, List.mem_nil_iff, or_false] at hmode
    rcases hmode with rfl | rfl | rfl | rfl <;>
      exact calculatePrice_day_irrelevant day1 day2 _ dist c p (by decide) (by decide)
  · intro hne
    by_contra hnot
    push_neg at hnot
    exact hne (calculatePrice_day_irrelevant day1 day2 mode dist c p hnot.1 hnot.2)
  · rw [calculatePrice_of_parse 1 "car" (JSVal.num (JSNum.fin 10)) 10 0 "" (by simp [modes])
        (by simp [JSVal.truthy, JSNum.truthy]) rfl,
      calculatePrice_of_parse Saturday "car" (JSVal.num (JSNum.fin 10)) 10 0 ""
        (by simp [modes]) (by simp [JSVal.truthy, JSNum.truthy]) rfl]
    simp [specPrice, specRate, Saturday, Sunday, round_eq]
    norm_num
  · rw [calculatePrice_of_parse 1 "bus" (JSVal.num (JSNum.fin 10)) 10 0 "" (by simp [modes])
        (by simp [JSVal.truthy, JSNum.truthy]) rfl,
      calculatePrice_of_parse Saturday "bus" (JSVal.num (JSNum.fin 10)) 10 0 ""
        (by simp [modes]) (by simp [JSVal.truthy, JSNum.truthy]) rfl]
    simp [specPrice, specRate, Saturday, Sunday, round_eq]
    norm_num

theorem calculatePrice_clock_witness :
    calculatePrice Sunday "train" (JSVal.str "42.5") 2 "work" =
      calculatePrice 3 "train" (JSVal.str "42.5") 2 "work" :=
  (calculatePrice_clock Sunday 3 "train" (JSVal.str "42.5") 2 "work").1 (by simp)

/-- C29 (counterexample): for the empty draft and the client draw 0 the payload
has trip number 0; the server, with the draw 1/2, stores 500 in its place. -/
theorem insertedRow_rerolls_trip_number :
    (buildPayload FormData.empty 0 "t1" "t2").json Column.trip_number = JsonVal.num 0 ∧
      insertedRow (buildPayload FormData.empty 0 "t1" "t2").body (1 / 2) "t3" "t4"
        Column.trip_number = JsonVal.num 500 ∧
      insertedRow (buildPayload FormData.empty 0 "t1" "t2").body (1 / 2) "t3" "t4"
        Column.trip_number ≠ (buildPayload FormData.empty 0 "t1" "t2").json Column.trip_number := by
  have hp : (buildPayload FormData.empty 0 "t1" "t2").json Column.trip_number =
      JsonVal.num 0 := by
    simp [buildPayload, FormData.empty, parseInt_empty, orElse_nan, Payload.json,
      JsonVal.ofNumber]
  have hr : insertedRow (buildPayload FormData.empty 0 "t1" "t2").body (1 / 2) "t3" "t4"
      Column.trip_number = JsonVal.num 500 := by
    simp only [insertedRow, Payload.body, hp]
    simp [JsonVal.orDefault, JsonVal.truthy, serverDefault]
    norm_num
  refine ⟨hp, hr, ?_⟩
  rw [hr, hp]
  simp

/-- C29 (amended): for every draft, client draw and server draw such that the
trip number of the payload is not 0 (and no coordinate, distance or cost of the
payload is an infinity, which JSON does not carry, and the client clock
readings are non-empty texts), the row inserted by `POST /api/trips` for the
payload built by `handleSubmit` equals that payload column by column. -/
theorem insertedRow_of_payload (fd : FormData) (r : ℚ) (nowStart nowEnd : String)
    (serverDraw : ℚ) (serverStart serverEnd : String)
    (htrip : (buildPayload fd r nowStart nowEnd).trip_number ≠ JSNum.fin 0)
    (hlat1 : (buildPayload fd r nowStart nowEnd).origin_lat.isFinite = true)
    (hlng1 : (buildPayload fd r nowStart nowEnd).origin_lng.isFinite = true)
    (hlat2 : (buildPayload fd r nowStart nowEnd).destination_lat.isFinite = true)
    (hlng2 : (buildPayload fd r nowStart nowEnd).destination_lng.isFinite = true)
    (hdist : (buildPayload fd r nowStart nowEnd).distance.isFinite = true)
    (hcost : (buildPayload fd r nowStart nowEnd).cost.isFinite = true)
    (hstart : nowStart ≠ "") (hend : nowEnd ≠ "") (col : Column) :
    insertedRow (buildPayload fd r nowStart nowEnd).body serverDraw serverStart serverEnd col =
      (buildPayload fd r nowStart nowEnd).json col := by
  cases col <;> simp only [insertedRow, Payload.body, Payload.json, serverDefault]
  · exact orDefault_of_ne_zero _ _ (orElse_parseInt_isFinite _ _) htrip
  · exact orDefault_of_finite _ hlat1
  · exact orDefault_of_finite _ hlng1
  · exact orDefault_of_str _ _ (strOr_ne_empty _ _ (by decide))
  · exact orDefault_of_str _ _ (strOr_ne_empty _ _ hstart)
  · exact orDefault_of_finite _ hlat2
  · exact orDefault_of_finite _ hlng2
  · exact orDefault_of_str _ _ (strOr_ne_empty _ _ (by decide))
  · exact orDefault_of_str _ _ (strOr_ne_empty _ _ hend)
  · exact orDefault_of_str _ _ (strOr_ne_empty _ _ (by decide))
  · exact orDefault_of_ne_zero _ _ hdist (orElse_ne_zero _ _ (by simp))
  · exact orDefault_of_str _ _ (strOr_ne_empty _ _ (by decide))
  · exact orDefault_of_finite _ (orElse_parseInt_isFinite _ _)
  · exact orDefault_of_str _ _ (strOr_ne_empty _ _ (by decide))
  · exact orDefault_of_finite _ hcost

theorem insertedRow_of_payload_witness :
    insertedRow (buildPayload FormData.empty (1 / 4) "t1" "t2").body (1 / 2) "t3" "t4"
        Column.trip_number =
      (buildPayload FormData.empty (1 / 4) "t1" "t2").json Column.trip_number :=
  have hp : buildPayload FormData.empty (1 / 4) "t1" "t2" =
      { trip_number := JSNum.fin 250, origin_lat := JSNum.fin 0, origin_lng := JSNum.fin 0,
        origin_place := "Unknown Location", start_time := "t1",
        destination_lat := JSNum.fin 0, destination_lng := JSNum.fin 0,
        destination_place := "Unknown Location", end_time := "t2", mode := "car",
        distance := JSNum.fin 1, purpose := "other", companions := JSNum.fin 0,
        frequency := "rarely", cost := JSNum.fin 0 } := by
    simp [buildPayload, FormData.empty, parseInt_empty, parseFloat_empty, orElse_nan,
      strOr_empty]
    norm_num
  insertedRow_of_payload FormData.empty (1 / 4) "t1" "t2" (1 / 2) "t3" "t4"
    (by rw [hp]; simp) (by rw [hp]; rfl) (by rw [hp]; rfl) (by rw [hp]; rfl) (by rw [hp]; rfl)
    (by rw [hp]; rfl) (by rw [hp]; rfl) (by decide) (by decide) Column.trip_number

/-- C30 (the code at the failing input): with origin latitude `0` the legacy
listener does not recompute and leaves the distance field as it was, while
`handleInputChange` of the React form writes the two-decimal distance. -/
theorem legacyCoordinateInput_zero (day : Fin 7) :
    legacyCoordinateInput "0" "10" "20" "30" "" = "" ∧
      (handleInputChange day
        ⟨3, { FormData.empty with originLat := "0", originLng := "10",
                                  destinationLat := "20" }, false⟩
        Field.destinationLng "30").1.formData.distance =
        toFixed2 (calculateDistance ((0 : ℚ) : ℝ) ((10 : ℚ) : ℝ) ((20 : ℚ) : ℝ)
          ((30 : ℚ) : ℝ)) ∧
      (handleInputChange day
        ⟨3, { FormData.empty with originLat := "0", originLng := "10",
                                  destinationLat := "20" }, false⟩
        Field.destinationLng "30").1.formData.distance ≠
        legacyCoordinateInput "0" "10" "20" "30" "" := by
  have h0 : parseFloat (JSVal.str "0") = JSNum.fin 0 := by
    simp [parseFloat, parseFloatChars, takeSign, isStrWhiteSpace, digitsValue, exponentValue]
  have h10 : parseFloat (JSVal.str "10") = JSNum.fin 10 := by
    simp [parseFloat, parseFloatChars, takeSign, isStrWhiteSpace, digitsValue, exponentValue]
  have h20 : parseFloat (JSVal.str "20") = JSNum.fin 20 := by
    simp [parseFloat, parseFloatChars, takeSign, isStrWhiteSpace, digitsValue, exponentValue]
  have h30 : parseFloat (JSVal.str "30") = JSNum.fin 30 := by
    simp [parseFloat, parseFloatChars, takeSign, isStrWhiteSpace, digitsValue, exponentValue]
  have hlegacy : legacyCoordinateInput "0" "10" "20" "30" "" = "" := by
    simp [legacyCoordinateInput, h0, JSNum.truthy]
  have hreact := handleInputChange_coordinate_distance day
    ⟨3, { FormData.empty with originLat := "0", originLng := "10",
                              destinationLat := "20" }, false⟩
    Field.destinationLng "30" (by simp [coordinateFields])
    (by simp [coordinatesPresent, FormData.set, FormData.empty])
  simp only [FormData.set, FormData.empty, h0, h10, h20, h30, distanceKmText] at hreact
  refine ⟨hlegacy, hreact, fun h => ?_⟩
  rw [hlegacy] at h
  exact toFixed2_ne_empty _ (Eq.trans (Eq.symm hreact) h)

end TravelTracker
